import Mathlib

/-!
# isuumo web application (`webapp/go/main.go`): search query builder and bulk loader

A shallow embedding of the handlers `searchChairs`, `searchEstates`, `postChair`
and `postEstate` together with `RecordMapper`, and of the handlers that work on
one id or one polygon (`getChairDetail`, `getEstateDetail`, `buyChair`,
`postEstateRequestDocument`, `searchRecommendedEstateWithChair`,
`searchEstateNazotte`), followed by theorems about them.

Conventions of the embedding:

* a Go `string` is a Lean `String`; a Go `int` / `int64` is an `Int` that stays
  inside the 64-bit range (`wrap64` is applied where the source can overflow);
* a Go `error` is an `Option` of an error value (`none` is `nil`);
* the functions of the Go standard library that the handlers call
  (`strconv.Atoi`, `strconv.Itoa`, `strings.Split`, `strings.Join`) are embedded
  from the library sources for a 64-bit platform;
* the relational store is external: handlers receive its operations as arguments.
-/

namespace Isuumo

/-! ## Go standard library -/

/-- The two error kinds of `strconv.NumError`: `ErrSyntax` and `ErrRange`. -/
inductive NumError where
  | syntaxErr
  | rangeErr
  deriving DecidableEq, Repr

/-- Largest `uint64`. -/
def maxUint64 : Nat := 2 ^ 64 - 1

/-- Two's complement reading of an integer in 64 bits (Go `int` arithmetic). -/
def wrap64 (x : Int) : Int :=
  (x + 2 ^ 63) % 2 ^ 64 - 2 ^ 63

/-- Value of a decimal digit byte, if the character is one (`'0' <= c && c <= '9'`). -/
def digitVal (c : Char) : Option Nat :=
  if 48 ≤ c.toNat ∧ c.toNat ≤ 57 then some (c.toNat - 48) else none

/-- The digit loop of the fast path of `strconv.Atoi`: `none` is a syntax error. -/
def atoiFastLoop : List Char → Nat → Option Nat
  | [], n => some n
  | c :: cs, n =>
    match digitVal c with
    | none => none
    | some d => atoiFastLoop cs (n * 10 + d)

/-- The digit loop of `strconv.ParseUint(s, 10, 64)`. It stops at the first
character that is no digit (syntax error, value 0) or at the first overflow
(range error, value `maxUint64`), whichever comes first. -/
def parseUintLoop : List Char → Nat → Nat × Option NumError
  | [], n => (n, none)
  | c :: cs, n =>
    match digitVal c with
    | none => (0, some NumError.syntaxErr)
    | some d =>
      if n ≥ maxUint64 / 10 + 1 then (maxUint64, some NumError.rangeErr)
      else
        let n10 := n * 10 % 2 ^ 64
        let n1 := (n10 + d) % 2 ^ 64
        if n1 < n10 ∨ n1 > maxUint64 then (maxUint64, some NumError.rangeErr)
        else parseUintLoop cs n1

/-- Go `strconv.ParseUint(s, 10, 64)`. -/
def ParseUint (s : List Char) : Nat × Option NumError :=
  match s with
  | [] => (0, some NumError.syntaxErr)
  | _ => parseUintLoop s 0

/-- Go `strconv.ParseInt(s, 10, 0)` on a 64-bit platform. -/
def ParseInt (s : List Char) : Int × Option NumError :=
  match s with
  | [] => (0, some NumError.syntaxErr)
  | c :: cs =>
    let neg := c = '-'
    let body := if c = '+' ∨ c = '-' then cs else s
    match ParseUint body with
    | (_, some NumError.syntaxErr) => (0, some NumError.syntaxErr)
    | (un, _) =>
      if ¬ neg ∧ un ≥ 2 ^ 63 then ((2 : Int) ^ 63 - 1, some NumError.rangeErr)
      else if neg ∧ un > 2 ^ 63 then (-(2 : Int) ^ 63, some NumError.rangeErr)
      else if neg then (-(un : Int), none)
      else ((un : Int), none)

/-- Go `strconv.Atoi` on a 64-bit platform: the parsed value together with the
error. A syntax error comes with value `0`, a range error with the nearest
representable value. -/
def Atoi (s : String) : Int × Option NumError :=
  let sLen := s.utf8ByteSize
  if 0 < sLen ∧ sLen < 19 then
    match s.data with
    | [] => (0, some NumError.syntaxErr)
    | c :: cs =>
      let signed := c = '-' ∨ c = '+'
      let body := if signed then cs else c :: cs
      if signed ∧ body.length < 1 then (0, some NumError.syntaxErr)
      else
        match atoiFastLoop body 0 with
        | none => (0, some NumError.syntaxErr)
        | some n => (if c = '-' then -(n : Int) else (n : Int), none)
  else ParseInt s.data

/-- Go `strconv.Itoa`: decimal text of an integer. -/
def Itoa (n : Int) : String :=
  match n with
  | Int.ofNat m => Nat.repr m
  | Int.negSucc m => "-" ++ Nat.repr (m + 1)

/-- Pieces of a character list separated by commas; always at least one piece. -/
def splitComma : List Char → List (List Char)
  | [] => [[]]
  | c :: cs =>
    match splitComma cs with
    | [] => [[c]]
    | p :: ps => if c = ',' then [] :: p :: ps else (c :: p) :: ps

/-- Go `strings.Split(s, ",")`. -/
def Split (s : String) : List String :=
  (splitComma s.data).map String.mk

/-- Go `strings.Join(elems, sep)`. -/
def Join (elems : List String) (sep : String) : String :=
  match elems with
  | [] => ""
  | [a] => a
  | a :: b :: rest => a ++ sep ++ Join (b :: rest) sep

/-! ## Data model (`main.go`, lines 27-165) -/

/-- Constant `Limit`. -/
def Limit : Int := 20

/-- Constant `NazotteLimit`. -/
def NazotteLimit : Int := 50

/-- Type `Chair`. -/
structure Chair where
  ID : Int
  Name : String
  Description : String
  Thumbnail : String
  Price : Int
  PriceRange : Int
  Height : Int
  HeightRange : Int
  Width : Int
  WidthRange : Int
  Depth : Int
  DepthRange : Int
  Color : String
  Features : String
  Kind : String
  Popularity : Int
  PopularityM : Int
  Stock : Int
  InStock : Bool
  deriving DecidableEq, Repr

/-- Type `ChairSearchResponse`. -/
structure ChairSearchResponse where
  Count : Int
  Chairs : List Chair
  deriving DecidableEq, Repr

/-- Type `Estate`. The type `F` stands for `float64`; `Point` is the
`interface{}` column value (`none` is `nil`). -/
structure Estate (F : Type) where
  ID : Int
  Thumbnail : String
  Name : String
  Description : String
  Latitude : F
  Longitude : F
  Address : String
  Rent : Int
  RentRange : Int
  DoorHeight : Int
  DoorHRange : Int
  DoorWidth : Int
  DoorWRange : Int
  Features : String
  Popularity : Int
  PopularityM : Int
  Point : Option String
  deriving DecidableEq, Repr

/-- Type `EstateSearchResponse`. -/
structure EstateSearchResponse (F : Type) where
  Count : Int
  Estates : List (Estate F)
  deriving DecidableEq, Repr

/-- Type `Range`. -/
structure Range where
  ID : Int
  Min : Int
  Max : Int
  deriving DecidableEq, Repr

/-- A Go `error` value as the handlers meet it: the error of
`fmt.Errorf("too many read")`, or a `*strconv.NumError`. -/
inductive GoError where
  | tooManyRead
  | num (e : NumError)
  deriving DecidableEq, Repr

/-- Errors of the store: `sql.ErrNoRows`, or any other failure. -/
inductive DbError where
  | errNoRows
  | other
  deriving DecidableEq, Repr

/-- A bound argument of a query (`interface{}` holding a string or an int). -/
inductive SqlArg where
  | str (s : String)
  | int (n : Int)
  deriving DecidableEq, Repr

/-- A statement sent to the store: its text and its bound arguments. -/
structure Query where
  text : String
  args : List SqlArg
  deriving DecidableEq, Repr

/-- An HTTP response: status code and JSON body (`none` for `c.NoContent`). -/
structure Response (β : Type) where
  status : Nat
  body : Option β
  deriving DecidableEq, Repr

/-- Go `http.StatusOK`. -/
abbrev StatusOK : Nat := 200
/-- Go `http.StatusCreated`. -/
abbrev StatusCreated : Nat := 201
/-- Go `http.StatusBadRequest`. -/
abbrev StatusBadRequest : Nat := 400
/-- Go `http.StatusNotFound`. -/
abbrev StatusNotFound : Nat := 404
/-- Go `http.StatusInternalServerError`. -/
abbrev StatusInternalServerError : Nat := 500

/-- Echo `c.NoContent(code)`. -/
def NoContent {β : Type} (code : Nat) : Response β := ⟨code, none⟩

/-- Echo `c.JSON(code, v)`. -/
def JSON {β : Type} (code : Nat) (v : β) : Response β := ⟨code, some v⟩

/-- The part of `echo.Context` the search handlers read: `c.QueryParam(name)`,
which is the empty string when the parameter is absent. -/
structure Context where
  QueryParam : String → String

/-- A context whose query string holds exactly the listed parameters. -/
def Context.ofPairs (kvs : List (String × String)) : Context :=
  ⟨fun name => ((kvs.find? (fun kv => kv.1 = name)).map (fun kv => kv.2)).getD ""⟩

/-- Read operations of a `*sqlx.DB` used by a search handler: `Get` of a count
and `Select` of rows of type `α`. -/
structure SearchDb (α : Type) where
  Get : Query → Except DbError Int
  Select : Query → Except DbError (List α)

/-! ## Search handlers (`main.go`, lines 517-671 and 841-962) -/

/-- The block that `searchChairs` and `searchEstates` repeat for each bucket-id
parameter (for instance lines 521-541), with `column` the text before the id
(`"price_range="`). The result `none` is the early
`return c.NoContent(http.StatusBadRequest)`. -/
def rangeFacet (column value : String) (conditions : List String) : Option (List String) :=
  if value ≠ "" then
    let rangeIndex := (Atoi value).1
    let err := (Atoi value).2
    if err ≠ none ∧ ¬ (0 ≤ rangeIndex ∧ rangeIndex ≤ 3) then none
    else some (conditions ++ [column ++ Itoa rangeIndex])
  else some conditions

/-- An equality facet bound as a parameter (lines 609-617). -/
def equalityFacet (condition value : String) (cp : List String × List SqlArg) :
    List String × List SqlArg :=
  if value ≠ "" then (cp.1 ++ [condition], cp.2 ++ [SqlArg.str value]) else cp

/-- The features facet: one condition and one bound parameter for each piece of
`strings.Split(value, ",")` (lines 619-624 and 912-917). -/
def featuresFacet (condition value : String) (cp : List String × List SqlArg) :
    List String × List SqlArg :=
  if value ≠ "" then
    (Split value).foldl (fun acc f => (acc.1 ++ [condition], acc.2 ++ [SqlArg.str f])) cp
  else cp

/-- Lines 518-624 of `searchChairs`: the conditions and bound parameters built
from the facets, or `none` when a bucket-id block returned a bad request. -/
def searchChairsConditions (c : Context) : Option (List String × List SqlArg) :=
  match rangeFacet "price_range=" (c.QueryParam "priceRangeId") [] with
  | none => none
  | some conditions =>
  match rangeFacet "height_range=" (c.QueryParam "heightRangeId") conditions with
  | none => none
  | some conditions =>
  match rangeFacet "width_range=" (c.QueryParam "widthRangeId") conditions with
  | none => none
  | some conditions =>
  match rangeFacet "depth_range=" (c.QueryParam "depthRangeId") conditions with
  | none => none
  | some conditions =>
    let cp := equalityFacet "kind = ?" (c.QueryParam "kind") (conditions, [])
    let cp := equalityFacet "color = ?" (c.QueryParam "color") cp
    some (featuresFacet "features LIKE CONCAT('%', ?, '%')" (c.QueryParam "features") cp)

/-- Lines 633-670 of `searchChairs` and 924-961 of `searchEstates`, which differ
only in the two literals `searchQuery` and `countQuery` and in the response
type: pagination parsing, the count query and the select query. The second
component lists the queries sent to the store, in order. -/
def runSearch {α β : Type} (searchQuery countQuery : String) (mk : Int → List α → β)
    (db : SearchDb α) (c : Context) (conditions : List String) (params : List SqlArg) :
    Response β × List Query :=
  match Atoi (c.QueryParam "page") with
  | (_, some _) => (NoContent StatusBadRequest, [])
  | (page, none) =>
  match Atoi (c.QueryParam "perPage") with
  | (_, some _) => (NoContent StatusBadRequest, [])
  | (perPage, none) =>
    let searchCondition := Join conditions " AND "
    let limitOffset := " ORDER BY popularity_m ASC, id ASC LIMIT ? OFFSET ?"
    let q1 : Query := ⟨countQuery ++ searchCondition, params⟩
    match db.Get q1 with
    | Except.error _ => (NoContent StatusInternalServerError, [q1])
    | Except.ok count =>
      let params := params ++ [SqlArg.int perPage, SqlArg.int (wrap64 (page * perPage))]
      let q2 : Query := ⟨searchQuery ++ searchCondition ++ limitOffset, params⟩
      match db.Select q2 with
      | Except.error DbError.errNoRows => (JSON StatusOK (mk 0 []), [q1, q2])
      | Except.error _ => (NoContent StatusInternalServerError, [q1, q2])
      | Except.ok rows => (JSON StatusOK (mk count rows), [q1, q2])

/-- Handler `searchChairs`. -/
def searchChairs (db : SearchDb Chair) (c : Context) :
    Response ChairSearchResponse × List Query :=
  match searchChairsConditions c with
  | none => (NoContent StatusBadRequest, [])
  | some (conditions, params) =>
    if conditions.length = 0 then (NoContent StatusBadRequest, [])
    else
      let conditions := conditions ++ ["`in_stock` = 1"]
      runSearch "SELECT * FROM chair WHERE " "SELECT COUNT(*) FROM chair WHERE "
        ChairSearchResponse.mk db c conditions params

/-- Lines 842-917 of `searchEstates`. -/
def searchEstatesConditions (c : Context) : Option (List String × List SqlArg) :=
  match rangeFacet "door_height_range=" (c.QueryParam "doorHeightRangeId") [] with
  | none => none
  | some conditions =>
  match rangeFacet "door_width_range=" (c.QueryParam "doorWidthRangeId") conditions with
  | none => none
  | some conditions =>
  match rangeFacet "rent_range=" (c.QueryParam "rentRangeId") conditions with
  | none => none
  | some conditions =>
    some (featuresFacet "features like concat('%', ?, '%')" (c.QueryParam "features")
      (conditions, []))

/-- Handler `searchEstates`. -/
def searchEstates {F : Type} (db : SearchDb (Estate F)) (c : Context) :
    Response (EstateSearchResponse F) × List Query :=
  match searchEstatesConditions c with
  | none => (NoContent StatusBadRequest, [])
  | some (conditions, params) =>
    if conditions.length = 0 then (NoContent StatusBadRequest, [])
    else
      runSearch "SELECT * FROM estate WHERE " "SELECT COUNT(*) FROM estate WHERE "
        EstateSearchResponse.mk db c conditions params

/-- A store that answers every count with `n` and every select with `rows`. -/
def SearchDb.const {α : Type} (n : Int) (rows : List α) : SearchDb α :=
  ⟨fun _ => Except.ok n, fun _ => Except.ok rows⟩

/-! ## `RecordMapper` (`main.go`, lines 160-216) -/

/-- Go `strconv.ParseFloat(s, 64)` and the `float64` zero, for a type `F` that
stands for `float64`. The handlers only parse and store coordinates, so the
model leaves the arithmetic of `float64` out. -/
structure FloatModel (F : Type) where
  zero : F
  ParseFloat : String → F × Option NumError

/-- Type `RecordMapper`. -/
structure RecordMapper where
  Record : List String
  offset : Nat
  err : Option GoError
  deriving DecidableEq, Repr

/-- Method `next`: the returned pair and the mapper afterwards. -/
def RecordMapper.next (r : RecordMapper) : (String × Option GoError) × RecordMapper :=
  match r.err with
  | some e => (("", some e), r)
  | none =>
    if r.offset ≥ r.Record.length then
      (("", some GoError.tooManyRead), { r with err := some GoError.tooManyRead })
    else
      ((r.Record.getD r.offset "", none), { r with offset := r.offset + 1 })

/-- Method `NextInt`. -/
def RecordMapper.NextInt (r : RecordMapper) : Int × RecordMapper :=
  match r.next with
  | ((_, some _), r1) => (0, r1)
  | ((s, none), r1) =>
    match (Atoi s).2 with
    | some e => (0, { r1 with err := some (GoError.num e) })
    | none => ((Atoi s).1, r1)

/-- Method `NextFloat`. -/
def RecordMapper.NextFloat {F : Type} (fm : FloatModel F) (r : RecordMapper) :
    F × RecordMapper :=
  match r.next with
  | ((_, some _), r1) => (fm.zero, r1)
  | ((s, none), r1) =>
    match (fm.ParseFloat s).2 with
    | some e => (fm.zero, { r1 with err := some (GoError.num e) })
    | none => ((fm.ParseFloat s).1, r1)

/-- Method `NextString`. -/
def RecordMapper.NextString (r : RecordMapper) : String × RecordMapper :=
  match r.next with
  | ((_, some _), r1) => ("", r1)
  | ((s, none), r1) => (s, r1)

/-- Method `Err`. -/
def RecordMapper.Err (r : RecordMapper) : Option GoError := r.err

/-! ## Bulk loaders (`main.go`, lines 453-515 and 779-839) -/

/-- The four caches of lines 258-264, as the entries they hold: the per-id
caches as association lists, the singleton caches as an optional value. -/
structure Caches (F : Type) where
  chairDetailCache : List (Int × Chair)
  estateDetailCache : List (Int × Estate F)
  lowPricedChairCache : Option (List Chair)
  lowPricedEstateCache : Option (List (Estate F))
  deriving DecidableEq, Repr

/-- State outside the handler: the two stores (of arbitrary types `σc` and
`σe`) and the caches. -/
structure World (σc σe F : Type) where
  chairDb : σc
  estateDb : σe
  caches : Caches F

/-- What the first lines of a bulk loader obtain from the request: no form
file, a file that fails to open, a file the CSV reader rejects, or the records
returned by `csv.NewReader(f).ReadAll()`. -/
inductive Upload where
  | noFormFile
  | openError
  | csvError
  | records (rows : List (List String))
  deriving DecidableEq, Repr

/-- Lines 473-505, the body of the loop of `postChair` for one row: the mapper
after the thirteen reads and the `Chair` literal of lines 491-505. The fields the
literal leaves out have the Go zero value. -/
def postChairRow (row : List String) : RecordMapper × Chair :=
  let rm : RecordMapper := { Record := row, offset := 0, err := none }
  let (id, rm) := rm.NextInt
  let (name, rm) := rm.NextString
  let (description, rm) := rm.NextString
  let (thumbnail, rm) := rm.NextString
  let (price, rm) := rm.NextInt
  let (height, rm) := rm.NextInt
  let (width, rm) := rm.NextInt
  let (depth, rm) := rm.NextInt
  let (color, rm) := rm.NextString
  let (features, rm) := rm.NextString
  let (kind, rm) := rm.NextString
  let (popularity, rm) := rm.NextInt
  let (stock, rm) := rm.NextInt
  (rm,
    { ID := id, Name := name, Description := description, Thumbnail := thumbnail,
      Price := price, PriceRange := 0, Height := height, HeightRange := 0,
      Width := width, WidthRange := 0, Depth := depth, DepthRange := 0,
      Color := color, Features := features, Kind := kind,
      Popularity := popularity, PopularityM := 0, Stock := stock, InStock := false })

/-- Lines 471-506, the loop of `postChair`, started with the chairs appended so
far: `none` is the `return c.NoContent(http.StatusBadRequest)` of line 489. -/
def postChairLoop : List (List String) → List Chair → Option (List Chair)
  | [], chairs => some chairs
  | row :: rest, chairs =>
    match (postChairRow row).1.Err with
    | some _ => none
    | none => postChairLoop rest (chairs ++ [(postChairRow row).2])

/-- The statement of line 507. -/
def insertChairStmt : String :=
  "INSERT INTO `chair` (id, name, description, thumbnail, price, height, width, depth, color, features, kind, popularity, stock) VALUES (:id, :name, :description, :thumbnail, :price, :height, :width, :depth, :color, :features, :kind, :popularity, :stock)"

/-- Handler `postChair`. The argument `NamedExec` is `chairDb.NamedExec`: from
the store, the statement and the rows, either an error or the store afterwards. -/
def postChair {σc σe F : Type} (NamedExec : σc → String → List Chair → Except DbError σc)
    (u : Upload) (w : World σc σe F) : Response Unit × World σc σe F :=
  match u with
  | Upload.noFormFile => (NoContent StatusBadRequest, w)
  | Upload.openError => (NoContent StatusInternalServerError, w)
  | Upload.csvError => (NoContent StatusInternalServerError, w)
  | Upload.records records =>
    match postChairLoop records [] with
    | none => (NoContent StatusBadRequest, w)
    | some chairs =>
      match NamedExec w.chairDb insertChairStmt chairs with
      | Except.error _ => (NoContent StatusInternalServerError, w)
      | Except.ok db =>
        (NoContent StatusCreated,
          { w with chairDb := db, caches := { w.caches with lowPricedChairCache := none } })

/-- Lines 799-829, the body of the loop of `postEstate` for one row. -/
def postEstateRow {F : Type} (fm : FloatModel F) (row : List String) :
    RecordMapper × Estate F :=
  let rm : RecordMapper := { Record := row, offset := 0, err := none }
  let (id, rm) := rm.NextInt
  let (name, rm) := rm.NextString
  let (description, rm) := rm.NextString
  let (thumbnail, rm) := rm.NextString
  let (address, rm) := rm.NextString
  let (latitude, rm) := rm.NextFloat fm
  let (longitude, rm) := rm.NextFloat fm
  let (rent, rm) := rm.NextInt
  let (doorHeight, rm) := rm.NextInt
  let (doorWidth, rm) := rm.NextInt
  let (features, rm) := rm.NextString
  let (popularity, rm) := rm.NextInt
  (rm,
    { ID := id, Thumbnail := thumbnail, Name := name, Description := description,
      Latitude := latitude, Longitude := longitude, Address := address,
      Rent := rent, RentRange := 0, DoorHeight := doorHeight, DoorHRange := 0,
      DoorWidth := doorWidth, DoorWRange := 0, Features := features,
      Popularity := popularity, PopularityM := 0, Point := none })

/-- Lines 797-830, the loop of `postEstate`. -/
def postEstateLoop {F : Type} (fm : FloatModel F) :
    List (List String) → List (Estate F) → Option (List (Estate F))
  | [], estates => some estates
  | row :: rest, estates =>
    match (postEstateRow fm row).1.Err with
    | some _ => none
    | none => postEstateLoop fm rest (estates ++ [(postEstateRow fm row).2])

/-- The statement of line 831. -/
def insertEstateStmt : String :=
  "INSERT INTO `estate` (id, name, description, thumbnail, address, latitude, longitude, rent, door_height, door_width, features, popularity) VALUES (:id, :name, :description, :thumbnail, :address, :latitude, :longitude, :rent, :door_height, :door_width, :features, :popularity)"

/-- Handler `postEstate`. -/
def postEstate {σc σe F : Type} (fm : FloatModel F)
    (NamedExec : σe → String → List (Estate F) → Except DbError σe)
    (u : Upload) (w : World σc σe F) : Response Unit × World σc σe F :=
  match u with
  | Upload.noFormFile => (NoContent StatusBadRequest, w)
  | Upload.openError => (NoContent StatusInternalServerError, w)
  | Upload.csvError => (NoContent StatusInternalServerError, w)
  | Upload.records records =>
    match postEstateLoop fm records [] with
    | none => (NoContent StatusBadRequest, w)
    | some estates =>
      match NamedExec w.estateDb insertEstateStmt estates with
      | Except.error _ => (NoContent StatusInternalServerError, w)
      | Except.ok db =>
        (NoContent StatusCreated,
          { w with estateDb := db, caches := { w.caches with lowPricedEstateCache := none } })

/-- A float model for examples: it reads integer-valued coordinates only, on
which it agrees with `strconv.ParseFloat`. -/
def intCoordinates : FloatModel Int :=
  ⟨0, Atoi⟩

/-- A store for examples: the list of rows inserted so far; `NamedExec` appends. -/
def appendRows {α : Type} (db : List α) (_stmt : String) (rows : List α) :
    Except DbError (List α) :=
  Except.ok (db ++ rows)

/-! ## Auxiliary definitions for the proofs -/

/-- The kind of read applied to a field: `NextInt`, `NextString` or `NextFloat`. -/
inductive FieldKind where
  | int
  | str
  | float
  deriving DecidableEq, Repr

/-- The mapper after one read of the given kind. -/
def readField {F : Type} (fm : FloatModel F) (k : FieldKind) (r : RecordMapper) :
    RecordMapper :=
  match k with
  | FieldKind.int => r.NextInt.2
  | FieldKind.str => r.NextString.2
  | FieldKind.float => (r.NextFloat fm).2

/-- The mapper after a sequence of reads. -/
def readFields {F : Type} (fm : FloatModel F) : List FieldKind → RecordMapper → RecordMapper
  | [], r => r
  | k :: ks, r => readFields fm ks (readField fm k r)

/-- A field text is accepted by a read of the given kind. -/
def fieldOK {F : Type} (fm : FloatModel F) (k : FieldKind) (s : String) : Prop :=
  match k with
  | FieldKind.int => (Atoi s).2 = none
  | FieldKind.str => True
  | FieldKind.float => (fm.ParseFloat s).2 = none

/-- The reads of `postChair`, in order (lines 474-486). -/
def chairKinds : List FieldKind :=
  [FieldKind.int, FieldKind.str, FieldKind.str, FieldKind.str, FieldKind.int,
   FieldKind.int, FieldKind.int, FieldKind.int, FieldKind.str, FieldKind.str,
   FieldKind.str, FieldKind.int, FieldKind.int]

/-- The reads of `postEstate`, in order (lines 800-811). -/
def estateKinds : List FieldKind :=
  [FieldKind.int, FieldKind.str, FieldKind.str, FieldKind.str, FieldKind.str,
   FieldKind.float, FieldKind.float, FieldKind.int, FieldKind.int, FieldKind.int,
   FieldKind.str, FieldKind.int]

/-- Positions of a chair row read with `NextInt`: id, price, height, width,
depth, popularity, stock. -/
def chairIntPositions : List Nat := [0, 4, 5, 6, 7, 11, 12]

/-- Positions of an estate row read with `NextInt`: id, rent, doorHeight,
doorWidth, popularity. -/
def estateIntPositions : List Nat := [0, 7, 8, 9, 11]

/-- Positions of an estate row read with `NextFloat`: latitude, longitude. -/
def estateFloatPositions : List Nat := [5, 6]

/-- The ordering and pagination suffix of the select query: the literal
`limitOffset` of both search handlers. -/
def limitOffsetText : String := " ORDER BY popularity_m ASC, id ASC LIMIT ? OFFSET ?"

/-- The queries of an accepted search have the stated shape: a predicate text
`P`, a parameter list `args` and the parsed `page` and `perPage` such that the
count query is `countPrefix ++ P` bound to `args`, the select query is
`selectPrefix ++ P ++ limitOffsetText` bound to `args` followed by `perPage` and
the Go `int` product `page * perPage`; the count query is always sent and the
select query is sent exactly when the count query succeeded. -/
def SearchQueriesShape {α : Type} (db : SearchDb α) (countPrefix selectPrefix : String)
    (c : Context) (sent : List Query) : Prop :=
  ∃ (P : String) (args : List SqlArg) (page perPage : Int),
    Atoi (c.QueryParam "page") = (page, none) ∧
    Atoi (c.QueryParam "perPage") = (perPage, none) ∧
    ((sent = [⟨countPrefix ++ P, args⟩] ∧
        ∃ e, db.Get ⟨countPrefix ++ P, args⟩ = Except.error e) ∨
     (sent = [⟨countPrefix ++ P, args⟩,
              ⟨selectPrefix ++ P ++ limitOffsetText,
               args ++ [SqlArg.int perPage, SqlArg.int (wrap64 (page * perPage))]⟩] ∧
        ∃ n, db.Get ⟨countPrefix ++ P, args⟩ = Except.ok n))

/-- Two chair searches agree on the bucket-id parameters, on which of `kind`,
`color` and `features` are non-empty, and on the number of commas in `features`. -/
def sameChairFacetShape (c1 c2 : Context) : Prop :=
  c1.QueryParam "priceRangeId" = c2.QueryParam "priceRangeId" ∧
  c1.QueryParam "heightRangeId" = c2.QueryParam "heightRangeId" ∧
  c1.QueryParam "widthRangeId" = c2.QueryParam "widthRangeId" ∧
  c1.QueryParam "depthRangeId" = c2.QueryParam "depthRangeId" ∧
  (c1.QueryParam "kind" = "" ↔ c2.QueryParam "kind" = "") ∧
  (c1.QueryParam "color" = "" ↔ c2.QueryParam "color" = "") ∧
  (c1.QueryParam "features" = "" ↔ c2.QueryParam "features" = "") ∧
  (c1.QueryParam "features").data.count ',' = (c2.QueryParam "features").data.count ','

/-- Two estate searches agree on the bucket-id parameters, on whether `features`
is non-empty, and on the number of commas in `features`. -/
def sameEstateFacetShape (c1 c2 : Context) : Prop :=
  c1.QueryParam "doorHeightRangeId" = c2.QueryParam "doorHeightRangeId" ∧
  c1.QueryParam "doorWidthRangeId" = c2.QueryParam "doorWidthRangeId" ∧
  c1.QueryParam "rentRangeId" = c2.QueryParam "rentRangeId" ∧
  (c1.QueryParam "features" = "" ↔ c2.QueryParam "features" = "") ∧
  (c1.QueryParam "features").data.count ',' = (c2.QueryParam "features").data.count ','

instance (c1 c2 : Context) : Decidable (sameChairFacetShape c1 c2) := by
  unfold sameChairFacetShape
  infer_instance

instance (c1 c2 : Context) : Decidable (sameEstateFacetShape c1 c2) := by
  unfold sameEstateFacetShape
  infer_instance

/-- The user-supplied values a search binds, in order: `kind`, `color` and the
pieces of `features`, each only when the parameter is non-empty. -/
def boundValues (kind color features : String) : List SqlArg :=
  (if kind ≠ "" then [SqlArg.str kind] else []) ++
  (if color ≠ "" then [SqlArg.str color] else []) ++
  (if features ≠ "" then (Split features).map SqlArg.str else [])

/-- Every facet parameter that `searchChairs` recognises is absent or empty. -/
def noChairFacet (c : Context) : Prop :=
  c.QueryParam "priceRangeId" = "" ∧ c.QueryParam "heightRangeId" = "" ∧
  c.QueryParam "widthRangeId" = "" ∧ c.QueryParam "depthRangeId" = "" ∧
  c.QueryParam "kind" = "" ∧ c.QueryParam "color" = "" ∧ c.QueryParam "features" = ""

instance (c : Context) : Decidable (noChairFacet c) := by
  unfold noChairFacet
  infer_instance

/-- Every facet parameter that `searchEstates` recognises is absent or empty. -/
def noEstateFacet (c : Context) : Prop :=
  c.QueryParam "doorHeightRangeId" = "" ∧ c.QueryParam "doorWidthRangeId" = "" ∧
  c.QueryParam "rentRangeId" = "" ∧ c.QueryParam "features" = ""

instance (c : Context) : Decidable (noEstateFacet c) := by
  unfold noEstateFacet
  infer_instance

/-- A chair store for examples: every count is 2, every select is empty. -/
def sampleChairDb : SearchDb Chair := SearchDb.const 2 []

/-- An estate store for examples: every count is 2, every select is empty. -/
def sampleEstateDb : SearchDb (Estate Int) := SearchDb.const 2 []

/-- A search request with one bucket-id parameter, `page=0` and `perPage=10`. -/
def bucketSearch (name value : String) : Context :=
  Context.ofPairs [(name, value), ("page", "0"), ("perPage", "10")]

/-- A chair search for examples: bucket 1 of the price, a kind, a colour and two
features, second page of ten. -/
def chairSearchA : Context :=
  Context.ofPairs [("priceRangeId", "1"), ("kind", "sofa"), ("color", "red"),
    ("features", "arm,wheel"), ("page", "1"), ("perPage", "10")]

/-- A chair search of the same shape as `chairSearchA` with other values. -/
def chairSearchB : Context :=
  Context.ofPairs [("priceRangeId", "1"), ("kind", "x' OR 1=1 --"), ("color", "blue"),
    ("features", "%,_"), ("page", "7"), ("perPage", "3")]

/-- An estate search for examples. -/
def estateSearchA : Context :=
  Context.ofPairs [("rentRangeId", "2"), ("features", "bath,garden"), ("page", "1"),
    ("perPage", "10")]

/-- An estate search of the same shape as `estateSearchA` with other values. -/
def estateSearchB : Context :=
  Context.ofPairs [("rentRangeId", "2"), ("features", "') OR 1=1 --,x"), ("page", "0"),
    ("perPage", "5")]

/-- Modelled from the spec: the Range Classifier of section 4.1, which has no
counterpart in `main.go`. Over the ordered bucket list of an attribute it
returns the index of the first half-open interval `[Min, Max)` that contains the
value, counting from `i`; `Max = -1` marks the final interval, unbounded above. -/
def classifyFrom (value : Int) : List Range → Nat → Option Nat
  | [], _ => none
  | r :: rs, i =>
    if r.Min ≤ value ∧ (r.Max = -1 ∨ value < r.Max) then some i
    else classifyFrom value rs (i + 1)

/-- Modelled from the spec: `classify(attribute, value)` of section 4.1 for the
bucket list `ranges` of the attribute. -/
def classify (ranges : List Range) (value : Int) : Option Nat :=
  classifyFrom value ranges 0

/-- The bucket boundaries of the example of section 8 of the specification:
`[0,1500)`, `[1500,3500)`, `[3500,5000)`, `[5000,∞)`. -/
def sampleRanges : List Range :=
  [⟨0, 0, 1500⟩, ⟨1, 1500, 3500⟩, ⟨2, 3500, 5000⟩, ⟨3, 5000, -1⟩]

/-- A well-formed chair row of thirteen fields. -/
def sampleChairRow : List String :=
  ["1", "stool", "a stool", "/img/1.png", "2000", "80", "40", "45", "red", "arm,wheel",
   "office", "7", "3"]

/-- A well-formed estate row of twelve fields. -/
def sampleEstateRow : List String :=
  ["9", "flat", "a flat", "/img/9.png", "1-2-3 Tokyo", "35", "139", "2000", "200", "90",
   "bath,garden", "4"]

/-- The world before any upload: empty stores (lists of inserted rows) and empty
caches. -/
def emptyWorld : World (List Chair) (List (Estate Int)) Int :=
  ⟨[], [], ⟨[], [], none, none⟩⟩

/-- A chair row with too few fields, or with a value that `strconv.Atoi` rejects
in a position read with `NextInt`. -/
def malformedChairRow (row : List String) : Prop :=
  row.length < 13 ∨
  ∃ i ∈ chairIntPositions, i < row.length ∧ (Atoi (row.getD i "")).2 ≠ none

instance (row : List String) : Decidable (malformedChairRow row) := by
  unfold malformedChairRow
  infer_instance

/-- An estate row with too few fields, or with a value that `strconv.Atoi`
(resp. `strconv.ParseFloat`) rejects in a position read with `NextInt` (resp.
`NextFloat`). -/
def malformedEstateRow {F : Type} (fm : FloatModel F) (row : List String) : Prop :=
  row.length < 12 ∨
  (∃ i ∈ estateIntPositions, i < row.length ∧ (Atoi (row.getD i "")).2 ≠ none) ∨
  (∃ i ∈ estateFloatPositions, i < row.length ∧ (fm.ParseFloat (row.getD i "")).2 ≠ none)

instance {F : Type} (fm : FloatModel F) (row : List String) :
    Decidable (malformedEstateRow fm row) := by
  unfold malformedEstateRow
  infer_instance

/-- A chair row that lacks its last field. -/
def shortChairRow : List String :=
  ["2", "bench", "a bench", "/img/2.png", "3000", "80", "40", "45", "blue", "", "garden", "7"]

/-- An estate row whose latitude is no number. -/
def badLatitudeEstateRow : List String :=
  ["10", "house", "a house", "/img/10.png", "4-5-6 Osaka", "north", "139", "2000", "200",
   "90", "", "4"]

/-- The row `sampleChairRow` with a fourteenth field. -/
def extraFieldChairRow : List String := sampleChairRow ++ ["extra"]

/-- The row `sampleEstateRow` with a thirteenth field. -/
def extraFieldEstateRow : List String := sampleEstateRow ++ ["extra"]

/-! ## Store and cache model for the handlers that look an entity up by id -/

/-- The state of the handlers below: the chair table and the estate table as
lists of rows, and the caches. -/
abbrev Tables (F : Type) : Type := World (List Chair) (List (Estate F)) F

/-- Modelled from the spec: the store (section 6) answering
`SELECT * FROM chair WHERE id = ?` on the chair table. The row with the id, or
`sql.ErrNoRows`; `dbError` stands for any other failure of the store. -/
def chairById (dbError : Bool) (table : List Chair) (id : Int) : Except DbError Chair :=
  if dbError then Except.error DbError.other
  else
    match table.find? (fun c => c.ID = id) with
    | some c => Except.ok c
    | none => Except.error DbError.errNoRows

/-- Modelled from the spec: the store answering `SELECT * FROM estate WHERE id = ?`. -/
def estateById {F : Type} (dbError : Bool) (table : List (Estate F)) (id : Int) :
    Except DbError (Estate F) :=
  if dbError then Except.error DbError.other
  else
    match table.find? (fun e => e.ID = id) with
    | some e => Except.ok e
    | none => Except.error DbError.errNoRows

/-- Modelled from the spec: the store answering
`SELECT * FROM chair WHERE id = ? AND in_stock = 1 FOR UPDATE`. -/
def chairInStockForUpdate (dbError : Bool) (table : List Chair) (id : Int) :
    Except DbError Chair :=
  if dbError then Except.error DbError.other
  else
    match table.find? (fun c => c.ID = id ∧ c.InStock = true) with
    | some c => Except.ok c
    | none => Except.error DbError.errNoRows

/-- Modelled from the spec: the store executing
`UPDATE chair SET stock = stock - 1 WHERE id = ?`. The schema is not part of the
sources; by section 3 the in-stock flag is `stock > 0` whenever it is read, so
the flag of an updated row follows its new stock. -/
def decrementStock (table : List Chair) (id : Int) : List Chair :=
  table.map (fun c =>
    if c.ID = id then { c with Stock := c.Stock - 1, InStock := decide (0 < c.Stock - 1) }
    else c)

/-- Modelled from the spec: `get(key)` of the cache of section 4.3 (library `sc`)
for one caller at a time and within the time to live: a stored entry is
returned without calling the loader; otherwise the loader runs, a value is
stored and an error is returned without being stored. -/
def cacheGet {α : Type} (entries : List (Int × α)) (loader : Int → Except DbError α)
    (key : Int) : Except DbError α × List (Int × α) :=
  match entries.find? (fun e => e.1 = key) with
  | some e => (Except.ok e.2, entries)
  | none =>
    match loader key with
    | Except.ok v => (Except.ok v, (key, v) :: entries)
    | Except.error err => (Except.error err, entries)

/-- Modelled from the spec: `forget(key)` of the cache of section 4.3. -/
def cacheForget {α : Type} (entries : List (Int × α)) (key : Int) : List (Int × α) :=
  entries.filter (fun e => e.1 ≠ key)

/-- `chairDetailCache.Get(context.Background(), id)` with the loader of lines
331-336: the result and the caches afterwards. -/
def chairDetailGet {F : Type} (dbError : Bool) (w : Tables F) (id : Int) :
    Except DbError Chair × Tables F :=
  let r := cacheGet w.caches.chairDetailCache (chairById dbError w.chairDb) id
  (r.1, { w with caches := { w.caches with chairDetailCache := r.2 } })

/-- `estateDetailCache.Get(context.Background(), id)` with the loader of lines
337-342. -/
def estateDetailGet {F : Type} (dbError : Bool) (w : Tables F) (id : Int) :
    Except DbError (Estate F) × Tables F :=
  let r := cacheGet w.caches.estateDetailCache (estateById dbError w.estateDb) id
  (r.1, { w with caches := { w.caches with estateDetailCache := r.2 } })

/-! ## Handlers that look an entity up by id -/

/-- Handler `getChairDetail`; `idParam` is `c.Param("id")`. -/
def getChairDetail {F : Type} (dbError : Bool) (idParam : String) (w : Tables F) :
    Response Chair × Tables F :=
  match Atoi idParam with
  | (_, some _) => (NoContent StatusBadRequest, w)
  | (id, none) =>
    match chairDetailGet dbError w id with
    | (Except.error DbError.errNoRows, w1) => (NoContent StatusNotFound, w1)
    | (Except.error _, w1) => (NoContent StatusInternalServerError, w1)
    | (Except.ok chair, w1) =>
      if chair.Stock ≤ 0 then (NoContent StatusNotFound, w1)
      else (JSON StatusOK chair, w1)

/-- Handler `getEstateDetail`. -/
def getEstateDetail {F : Type} (dbError : Bool) (idParam : String) (w : Tables F) :
    Response (Estate F) × Tables F :=
  match Atoi idParam with
  | (_, some _) => (NoContent StatusBadRequest, w)
  | (id, none) =>
    match estateDetailGet dbError w id with
    | (Except.error DbError.errNoRows, w1) => (NoContent StatusNotFound, w1)
    | (Except.error _, w1) => (NoContent StatusInternalServerError, w1)
    | (Except.ok estate, w1) => (JSON StatusOK estate, w1)

/-- What `buyChair` and `postEstateRequestDocument` read from the request:
whether `c.Bind(&m)` fails, the value of `m["email"].(string)` (`none` when the
key is absent or holds no string) and `c.Param("id")`. -/
structure DocumentRequest where
  bindError : Bool
  email : Option String
  id : String
  deriving DecidableEq, Repr

/-- Failures of the store during the transaction of `buyChair`, one flag for
each call: `Beginx`, `QueryRowx(...).StructScan`, `Exec` and `Commit`. -/
structure TxFaults where
  beginx : Bool
  query : Bool
  exec : Bool
  commit : Bool
  deriving DecidableEq, Repr

/-- Handler `buyChair`. The transaction runs alone on the store; when the
handler returns before `Commit` succeeds the deferred `Rollback` leaves the
table as it was. -/
def buyChair {F : Type} (faults : TxFaults) (req : DocumentRequest) (w : Tables F) :
    Response Unit × Tables F :=
  if req.bindError then (NoContent StatusInternalServerError, w)
  else
    match req.email with
    | none => (NoContent StatusBadRequest, w)
    | some _ =>
      match Atoi req.id with
      | (_, some _) => (NoContent StatusBadRequest, w)
      | (id, none) =>
        if faults.beginx then (NoContent StatusInternalServerError, w)
        else
          match chairInStockForUpdate faults.query w.chairDb id with
          | Except.error DbError.errNoRows => (NoContent StatusNotFound, w)
          | Except.error _ => (NoContent StatusInternalServerError, w)
          | Except.ok _ =>
            if faults.exec then (NoContent StatusInternalServerError, w)
            else if faults.commit then (NoContent StatusInternalServerError, w)
            else
              (NoContent StatusOK,
                { w with
                  chairDb := decrementStock w.chairDb id,
                  caches := { w.caches with
                    chairDetailCache := cacheForget w.caches.chairDetailCache id,
                    lowPricedChairCache := none } })

/-- Handler `postEstateRequestDocument`. -/
def postEstateRequestDocument {F : Type} (dbError : Bool) (req : DocumentRequest)
    (w : Tables F) : Response Unit × Tables F :=
  if req.bindError then (NoContent StatusInternalServerError, w)
  else
    match req.email with
    | none => (NoContent StatusBadRequest, w)
    | some _ =>
      match Atoi req.id with
      | (_, some _) => (NoContent StatusBadRequest, w)
      | (id, none) =>
        match estateDetailGet dbError w id with
        | (Except.error DbError.errNoRows, w1) => (NoContent StatusNotFound, w1)
        | (Except.error _, w1) => (NoContent StatusInternalServerError, w1)
        | (Except.ok _, w1) => (NoContent StatusOK, w1)

/-- Type `EstateListResponse`. -/
structure EstateListResponse (F : Type) where
  Estates : List (Estate F)
  deriving DecidableEq, Repr

/-- The statement of line 1001. -/
def recommendedEstateStmt : String :=
  "SELECT * FROM estate WHERE (door_width >= ? AND door_height >= ?) OR (door_width >= ? AND door_height >= ?) OR (door_width >= ? AND door_height >= ?) OR (door_width >= ? AND door_height >= ?) OR (door_width >= ? AND door_height >= ?) OR (door_width >= ? AND door_height >= ?) ORDER BY popularity_m ASC, id ASC LIMIT ?"

/-- Handler `searchRecommendedEstateWithChair`. The chair is read from the
chair table directly (line 987); `Select` is `estateDb.Select`. The second
component lists the queries sent to the estate store. -/
def searchRecommendedEstateWithChair {F : Type} (dbError : Bool)
    (Select : Query → Except DbError (List (Estate F))) (idParam : String)
    (w : Tables F) : Response (EstateListResponse F) × List Query :=
  match Atoi idParam with
  | (_, some _) => (NoContent StatusBadRequest, [])
  | (id, none) =>
    match chairById dbError w.chairDb id with
    | Except.error DbError.errNoRows => (NoContent StatusBadRequest, [])
    | Except.error _ => (NoContent StatusInternalServerError, [])
    | Except.ok chair =>
      let cw := SqlArg.int chair.Width
      let ch := SqlArg.int chair.Height
      let cd := SqlArg.int chair.Depth
      let q : Query :=
        ⟨recommendedEstateStmt,
          [cw, ch, cw, cd, ch, cw, ch, cd, cd, cw, cd, ch, SqlArg.int Limit]⟩
      match Select q with
      | Except.error DbError.errNoRows => (JSON StatusOK ⟨[]⟩, [q])
      | Except.error _ => (NoContent StatusInternalServerError, [q])
      | Except.ok estates => (JSON StatusOK ⟨estates⟩, [q])

/-! ## Geo containment search (`main.go`, lines 1014-1042 and 1107-1113) -/

/-- Type `Coordinate`. -/
structure Coordinate (F : Type) where
  Latitude : F
  Longitude : F
  deriving DecidableEq, Repr

/-- Method `coordinatesToText` of `Coordinates`; `fmtF` is the rendering of a
`float64` by the verb `%f`. -/
def coordinatesToText {F : Type} (fmtF : F → String) (cs : List (Coordinate F)) : String :=
  let points := cs.map (fun c => fmtF c.Latitude ++ " " ++ fmtF c.Longitude)
  "'POLYGON((" ++ Join points "," ++ "))'"

/-- Handler `searchEstateNazotte`. The body is `none` when `c.Bind` fails and the
decoded coordinate list otherwise; the second component lists the queries sent
to the store. -/
def searchEstateNazotte {F : Type} (fmtF : F → String)
    (Select : Query → Except DbError (List (Estate F)))
    (body : Option (List (Coordinate F))) :
    Response (EstateSearchResponse F) × List Query :=
  match body with
  | none => (NoContent StatusBadRequest, [])
  | some coordinates =>
    if coordinates.length = 0 then (NoContent StatusBadRequest, [])
    else
      let q : Query :=
        ⟨"SELECT * FROM estate WHERE ST_Contains(ST_PolygonFromText(" ++
            coordinatesToText fmtF coordinates ++
            "), point) ORDER BY popularity_m ASC, id ASC LIMIT ?",
          [SqlArg.int NazotteLimit]⟩
      match Select q with
      | Except.error DbError.errNoRows => (JSON StatusOK ⟨0, []⟩, [q])
      | Except.error _ => (NoContent StatusInternalServerError, [q])
      | Except.ok estates => (JSON StatusOK ⟨(estates.length : Int), estates⟩, [q])

/-! ## Auxiliary definitions for the purchase and cache claims -/

/-- A request that reaches the lookup of chair or estate `id`: the body binds,
it carries an email string and the path parameter parses to `id`. -/
def wellFormed (req : DocumentRequest) (id : Int) : Prop :=
  req.bindError = false ∧ req.email ≠ none ∧ Atoi req.id = (id, none)

instance (req : DocumentRequest) (id : Int) : Decidable (wellFormed req id) := by
  unfold wellFormed
  infer_instance

/-- No failure of the store during the transaction. -/
def noFaults : TxFaults := ⟨false, false, false, false⟩

/-- The stock of the chair with the given id, if the table has such a row. -/
def stockOf (table : List Chair) (id : Int) : Option Int :=
  (table.find? (fun c => c.ID = id)).map (fun c => c.Stock)

/-- The table has no in-stock row for the id: the id is absent or sold out. -/
def noInStockRow (table : List Chair) (id : Int) : Prop :=
  ∀ c ∈ table, c.ID = id → c.InStock = false

instance (table : List Chair) (id : Int) : Decidable (noInStockRow table id) := by
  unfold noInStockRow
  infer_instance

/-- The invariant of the chair table (section 3): ids are unique, the in-stock
flag of every row equals `stock > 0`, and no stock is negative. -/
def StoreInv (table : List Chair) : Prop :=
  (table.map (fun c => c.ID)).Nodup ∧
  ∀ c ∈ table, (c.InStock = true ↔ 0 < c.Stock) ∧ 0 ≤ c.Stock

instance (table : List Chair) : Decidable (StoreInv table) := by
  unfold StoreInv
  infer_instance

/-- The states reachable from a state by running `buyChair` any number of times,
one call after the other, with arbitrary requests and store failures. -/
inductive BuyReachable {F : Type} (w0 : Tables F) : Tables F → Prop where
  | start : BuyReachable w0 w0
  | step (w : Tables F) (faults : TxFaults) (req : DocumentRequest) :
      BuyReachable w0 w → BuyReachable w0 (buyChair faults req w).2

/-- A chair row for examples with the given id, price and stock; the in-stock
flag is `stock > 0`. -/
def chairRow (id price stock : Int) : Chair :=
  { ID := id, Name := "chair", Description := "", Thumbnail := "", Price := price,
    PriceRange := 0, Height := 80, HeightRange := 0, Width := 40, WidthRange := 0,
    Depth := 45, DepthRange := 0, Color := "red", Features := "", Kind := "office",
    Popularity := 1, PopularityM := -1, Stock := stock, InStock := decide (0 < stock) }

/-- An estate row for examples with the given id. -/
def estateRow (id : Int) : Estate Int :=
  { ID := id, Thumbnail := "", Name := "flat", Description := "", Latitude := 35,
    Longitude := 139, Address := "", Rent := 2000, RentRange := 1, DoorHeight := 200,
    DoorHRange := 1, DoorWidth := 90, DoorWRange := 1, Features := "", Popularity := 1,
    PopularityM := -1, Point := none }

/-- A world for examples: chair 1 with one unit in stock, chair 2 with five,
chair 3 sold out, estate 9, and all four caches filled. -/
def shopWorld : Tables Int :=
  ⟨[chairRow 1 1000 1, chairRow 2 2000 5, chairRow 3 3000 0], [estateRow 9],
    ⟨[(1, chairRow 1 1000 1), (2, chairRow 2 2000 5)], [(9, estateRow 9)],
      some [chairRow 1 1000 1, chairRow 2 2000 5], some [estateRow 9]⟩⟩

/-- A purchase request for the chair whose id has the given text. -/
def buyRequest (id : String) : DocumentRequest := ⟨false, some "a@example.com", id⟩

/-- An estate store for examples that answers every select with the given rows. -/
def selectConst {F : Type} (rows : List (Estate F)) (_q : Query) :
    Except DbError (List (Estate F)) :=
  Except.ok rows

/-- The rendering by `%f` of an integer-valued coordinate, for examples. -/
def fmtIntCoordinate (n : Int) : String := Itoa n ++ ".000000"

/-- The text of the containment query for a polygon literal (line 1027). -/
def nazotteStmt (polygon : String) : String :=
  "SELECT * FROM estate WHERE ST_Contains(ST_PolygonFromText(" ++ polygon ++
    "), point) ORDER BY popularity_m ASC, id ASC LIMIT ?"

/-- The number of `?` placeholders in a text. -/
def countPlaceholders (s : String) : Nat := s.data.count '?'

/-- The queries of an accepted search bind one argument to every placeholder:
for a predicate text `P` with as many `?` as there are `values`, the count query
`countPrefix ++ P` is bound to `values`, and the select query
`selectPrefix ++ P ++ limitOffsetText` has two more placeholders and is bound to
`values` followed by two integers. -/
def PlaceholderShape (countPrefix selectPrefix : String) (values : List SqlArg)
    (sent : List Query) : Prop :=
  ∃ (P : String) (perPage offset : Int),
    countPlaceholders P = values.length ∧
    countPlaceholders (countPrefix ++ P) = values.length ∧
    countPlaceholders (selectPrefix ++ P ++ limitOffsetText) = values.length + 2 ∧
    (sent = [⟨countPrefix ++ P, values⟩] ∨
     sent = [⟨countPrefix ++ P, values⟩,
             ⟨selectPrefix ++ P ++ limitOffsetText,
              values ++ [SqlArg.int perPage, SqlArg.int offset]⟩])

/-! ## Lemmas on the library functions -/

theorem splitComma_length (cs : List Char) :
    (splitComma cs).length = cs.count ',' + 1 := by
  induction cs with
  | nil => simp [splitComma]
  | cons c cs ih =>
    unfold splitComma
    cases h : splitComma cs with
    | nil => simp [h] at ih
    | cons p ps =>
      rw [h] at ih
      by_cases hc : c = ','
      · subst hc
        simp at ih ⊢
        omega
      · have hc2 : (',' == c) = false := by
          simp; exact fun h => hc h.symm
        simp [hc, List.count_cons, hc2] at ih ⊢
        omega

theorem Split_length (s : String) : (Split s).length = s.data.count ',' + 1 := by
  simp [Split, splitComma_length]

theorem wrap64_of_inRange (x : Int) (h1 : -(2 : Int) ^ 63 ≤ x) (h2 : x < (2 : Int) ^ 63) :
    wrap64 x = x := by
  unfold wrap64
  rw [Int.emod_eq_of_lt (by omega) (by omega)]
  omega

/-! ## Lemmas on the search handlers -/

theorem rangeFacet_empty (column : String) (conditions : List String) :
    rangeFacet column "" conditions = some conditions := by
  simp [rangeFacet]

theorem facet_foldl (condition : String) (l : List String) (cp : List String × List SqlArg) :
    l.foldl (fun acc f => (acc.1 ++ [condition], acc.2 ++ [SqlArg.str f])) cp
      = (cp.1 ++ List.replicate l.length condition, cp.2 ++ l.map SqlArg.str) := by
  induction l generalizing cp with
  | nil => simp
  | cons a l ih =>
    simp only [List.foldl_cons, ih, List.length_cons, List.map_cons, List.replicate_succ]
    simp

theorem featuresFacet_eq (condition value : String) (cp : List String × List SqlArg) :
    featuresFacet condition value cp
      = if value ≠ "" then
          (cp.1 ++ List.replicate (value.data.count ',' + 1) condition,
           cp.2 ++ (Split value).map SqlArg.str)
        else cp := by
  unfold featuresFacet
  split
  · rw [facet_foldl, Split_length]
  · rfl

theorem runSearch_shape {α β : Type} (sq cq : String) (mk : Int → List α → β)
    (db : SearchDb α) (c : Context) (conditions : List String) (params : List SqlArg) :
    ((runSearch sq cq mk db c conditions params).1.status = StatusBadRequest ∧
      (runSearch sq cq mk db c conditions params).2 = []) ∨
    ((runSearch sq cq mk db c conditions params).1.status ≠ StatusBadRequest ∧
      ∃ page perPage : Int,
        Atoi (c.QueryParam "page") = (page, none) ∧
        Atoi (c.QueryParam "perPage") = (perPage, none) ∧
        (((runSearch sq cq mk db c conditions params).2
            = [⟨cq ++ Join conditions " AND ", params⟩] ∧
          ∃ e, db.Get ⟨cq ++ Join conditions " AND ", params⟩ = Except.error e) ∨
         ((runSearch sq cq mk db c conditions params).2
            = [⟨cq ++ Join conditions " AND ", params⟩,
               ⟨sq ++ Join conditions " AND " ++ limitOffsetText,
                params ++ [SqlArg.int perPage, SqlArg.int (wrap64 (page * perPage))]⟩] ∧
          ∃ n, db.Get ⟨cq ++ Join conditions " AND ", params⟩ = Except.ok n))) := by
  unfold runSearch
  rcases hpage : Atoi (c.QueryParam "page") with ⟨page, _ | e⟩
  swap
  · left; simp [NoContent]
  rcases hper : Atoi (c.QueryParam "perPage") with ⟨perPage, _ | e⟩
  swap
  · left; simp [NoContent]
  right
  simp only []
  cases hget : db.Get ⟨cq ++ Join conditions " AND ", params⟩ with
  | error e =>
    refine ⟨by simp [NoContent], page, perPage, rfl, rfl, Or.inl ⟨rfl, e, rfl⟩⟩
  | ok n =>
    simp only []
    cases hsel : db.Select ⟨sq ++ Join conditions " AND " ++
        " ORDER BY popularity_m ASC, id ASC LIMIT ? OFFSET ?",
        params ++ [SqlArg.int perPage, SqlArg.int (wrap64 (page * perPage))]⟩ with
    | error e =>
      cases e <;>
      exact ⟨by simp [NoContent, JSON], page, perPage, rfl, rfl, Or.inr ⟨rfl, n, rfl⟩⟩
    | ok rows =>
      exact ⟨by simp [JSON], page, perPage, rfl, rfl, Or.inr ⟨rfl, n, rfl⟩⟩

theorem searchChairs_shape (db : SearchDb Chair) (c : Context) :
    ((searchChairs db c).1.status = StatusBadRequest ∧ (searchChairs db c).2 = []) ∨
    ((searchChairs db c).1.status ≠ StatusBadRequest ∧
      ∃ conditions params, searchChairsConditions c = some (conditions, params) ∧
        SearchQueriesShape db "SELECT COUNT(*) FROM chair WHERE " "SELECT * FROM chair WHERE " c
          (searchChairs db c).2 ∧
        (∀ q : Query, (searchChairs db c).2.head? = some q → q.args = params) ∧
        ∀ (i : Nat) (q : Query), (searchChairs db c).2[i]? = some q →
          ["SELECT COUNT(*) FROM chair WHERE " ++
              Join (conditions ++ ["`in_stock` = 1"]) " AND ",
           "SELECT * FROM chair WHERE " ++
              Join (conditions ++ ["`in_stock` = 1"]) " AND " ++ limitOffsetText][i]?
            = some q.text) := by
  unfold searchChairs
  cases hc : searchChairsConditions c with
  | none => left; simp [NoContent]
  | some cp =>
    obtain ⟨conditions, params⟩ := cp
    simp only []
    split
    · left; simp [NoContent]
    · rcases runSearch_shape "SELECT * FROM chair WHERE " "SELECT COUNT(*) FROM chair WHERE "
        ChairSearchResponse.mk db c (conditions ++ ["`in_stock` = 1"]) params with h | h
      · left; exact h
      · right
        obtain ⟨hst, page, perPage, hp, hpp, hsent⟩ := h
        refine ⟨hst, conditions, params, rfl, ⟨_, params, page, perPage, hp, hpp, hsent⟩,
          ?_, ?_⟩
        · intro q hq
          rcases hsent with ⟨h1, _⟩ | ⟨h1, _⟩ <;>
          · rw [h1] at hq
            simp at hq
            subst hq
            rfl
        · intro i q hq
          rcases hsent with ⟨h1, _⟩ | ⟨h1, _⟩
          · rw [h1] at hq
            match i, hq with
            | 0, hq => simp at hq; subst hq; simp
          · rw [h1] at hq
            match i, hq with
            | 0, hq => simp at hq; subst hq; simp
            | 1, hq => simp at hq; subst hq; simp

theorem searchEstates_shape {F : Type} (db : SearchDb (Estate F)) (c : Context) :
    ((searchEstates db c).1.status = StatusBadRequest ∧ (searchEstates db c).2 = []) ∨
    ((searchEstates db c).1.status ≠ StatusBadRequest ∧
      ∃ conditions params, searchEstatesConditions c = some (conditions, params) ∧
        SearchQueriesShape db "SELECT COUNT(*) FROM estate WHERE " "SELECT * FROM estate WHERE "
          c (searchEstates db c).2 ∧
        (∀ q : Query, (searchEstates db c).2.head? = some q → q.args = params) ∧
        ∀ (i : Nat) (q : Query), (searchEstates db c).2[i]? = some q →
          ["SELECT COUNT(*) FROM estate WHERE " ++ Join conditions " AND ",
           "SELECT * FROM estate WHERE " ++ Join conditions " AND " ++ limitOffsetText][i]?
            = some q.text) := by
  unfold searchEstates
  cases hc : searchEstatesConditions c with
  | none => left; simp [NoContent]
  | some cp =>
    obtain ⟨conditions, params⟩ := cp
    simp only []
    split
    · left; simp [NoContent]
    · rcases runSearch_shape "SELECT * FROM estate WHERE " "SELECT COUNT(*) FROM estate WHERE "
        EstateSearchResponse.mk db c conditions params with h | h
      · left; exact h
      · right
        obtain ⟨hst, page, perPage, hp, hpp, hsent⟩ := h
        refine ⟨hst, conditions, params, rfl, ⟨_, params, page, perPage, hp, hpp, hsent⟩,
          ?_, ?_⟩
        · intro q hq
          rcases hsent with ⟨h1, _⟩ | ⟨h1, _⟩ <;>
          · rw [h1] at hq
            simp at hq
            subst hq
            rfl
        · intro i q hq
          rcases hsent with ⟨h1, _⟩ | ⟨h1, _⟩
          · rw [h1] at hq
            match i, hq with
            | 0, hq => simp at hq; subst hq; simp
          · rw [h1] at hq
            match i, hq with
            | 0, hq => simp at hq; subst hq; simp
            | 1, hq => simp at hq; subst hq; simp

theorem searchChairsConditions_text (c1 c2 : Context) (h : sameChairFacetShape c1 c2) :
    (searchChairsConditions c1).map Prod.fst = (searchChairsConditions c2).map Prod.fst := by
  obtain ⟨h1, h2, h3, h4, hk, hcol, hf, hn⟩ := h
  unfold searchChairsConditions
  rw [h1, h2, h3, h4]
  cases rangeFacet "price_range=" (c2.QueryParam "priceRangeId") [] with
  | none => rfl
  | some l1 =>
  simp only []
  cases rangeFacet "height_range=" (c2.QueryParam "heightRangeId") l1 with
  | none => rfl
  | some l2 =>
  simp only []
  cases rangeFacet "width_range=" (c2.QueryParam "widthRangeId") l2 with
  | none => rfl
  | some l3 =>
  simp only []
  cases rangeFacet "depth_range=" (c2.QueryParam "depthRangeId") l3 with
  | none => rfl
  | some l4 =>
  simp only [Option.map_some', featuresFacet_eq, equalityFacet, hn]
  by_cases e1 : c1.QueryParam "kind" = "" <;> by_cases e2 : c1.QueryParam "color" = "" <;>
    by_cases e3 : c1.QueryParam "features" = "" <;>
    simp [e1, e2, e3, hk.mp, hcol.mp, hf.mp, mt hk.mpr, mt hcol.mpr, mt hf.mpr]

theorem searchChairsConditions_args (c : Context) (conditions : List String)
    (params : List SqlArg) (h : searchChairsConditions c = some (conditions, params)) :
    params = boundValues (c.QueryParam "kind") (c.QueryParam "color")
      (c.QueryParam "features") := by
  unfold searchChairsConditions at h
  cases h1 : rangeFacet "price_range=" (c.QueryParam "priceRangeId") [] with
  | none => simp [h1] at h
  | some l1 =>
  cases h2 : rangeFacet "height_range=" (c.QueryParam "heightRangeId") l1 with
  | none => simp [h1, h2] at h
  | some l2 =>
  cases h3 : rangeFacet "width_range=" (c.QueryParam "widthRangeId") l2 with
  | none => simp [h1, h2, h3] at h
  | some l3 =>
  cases h4 : rangeFacet "depth_range=" (c.QueryParam "depthRangeId") l3 with
  | none => simp [h1, h2, h3, h4] at h
  | some l4 =>
  simp only [h1, h2, h3, h4, featuresFacet_eq, equalityFacet, Option.some.injEq] at h
  have hp := congrArg Prod.snd h
  simp only [] at hp
  rw [← hp]
  unfold boundValues
  by_cases e1 : c.QueryParam "kind" = "" <;> by_cases e2 : c.QueryParam "color" = "" <;>
    by_cases e3 : c.QueryParam "features" = "" <;> simp [e1, e2, e3]

theorem searchEstatesConditions_text (c1 c2 : Context) (h : sameEstateFacetShape c1 c2) :
    (searchEstatesConditions c1).map Prod.fst = (searchEstatesConditions c2).map Prod.fst := by
  obtain ⟨h1, h2, h3, hf, hn⟩ := h
  unfold searchEstatesConditions
  rw [h1, h2, h3]
  cases rangeFacet "door_height_range=" (c2.QueryParam "doorHeightRangeId") [] with
  | none => rfl
  | some l1 =>
  simp only []
  cases rangeFacet "door_width_range=" (c2.QueryParam "doorWidthRangeId") l1 with
  | none => rfl
  | some l2 =>
  simp only []
  cases rangeFacet "rent_range=" (c2.QueryParam "rentRangeId") l2 with
  | none => rfl
  | some l3 =>
  simp only [Option.map_some', featuresFacet_eq, hn]
  by_cases e3 : c1.QueryParam "features" = "" <;>
    simp [e3, hf.mp, mt hf.mpr]

theorem searchEstatesConditions_args (c : Context) (conditions : List String)
    (params : List SqlArg) (h : searchEstatesConditions c = some (conditions, params)) :
    params = boundValues "" "" (c.QueryParam "features") := by
  unfold searchEstatesConditions at h
  cases h1 : rangeFacet "door_height_range=" (c.QueryParam "doorHeightRangeId") [] with
  | none => simp [h1] at h
  | some l1 =>
  cases h2 : rangeFacet "door_width_range=" (c.QueryParam "doorWidthRangeId") l1 with
  | none => simp [h1, h2] at h
  | some l2 =>
  cases h3 : rangeFacet "rent_range=" (c.QueryParam "rentRangeId") l2 with
  | none => simp [h1, h2, h3] at h
  | some l3 =>
  simp only [h1, h2, h3, featuresFacet_eq, Option.some.injEq] at h
  have hp := congrArg Prod.snd h
  simp only [] at hp
  rw [← hp]
  unfold boundValues
  by_cases e3 : c.QueryParam "features" = "" <;> simp [e3]

theorem runSearch_accepts {α β : Type} (sq cq : String) (mk : Int → List α → β)
    (db : SearchDb α) (c : Context) (conditions : List String) (params : List SqlArg)
    (page perPage : Int) (hp : Atoi (c.QueryParam "page") = (page, none))
    (hpp : Atoi (c.QueryParam "perPage") = (perPage, none)) :
    (runSearch sq cq mk db c conditions params).1.status ≠ StatusBadRequest ∧
    (runSearch sq cq mk db c conditions params).2.head?
      = some ⟨cq ++ Join conditions " AND ", params⟩ := by
  rcases runSearch_shape sq cq mk db c conditions params with h | h
  · exfalso
    have h2 := h.2
    unfold runSearch at h2
    rw [hp, hpp] at h2
    simp only [] at h2
    cases hget : db.Get ⟨cq ++ Join conditions " AND ", params⟩ with
    | error e => simp [hget] at h2
    | ok n =>
      simp only [hget] at h2
      split at h2 <;> simp at h2
  · obtain ⟨hst, _, _, _, _, hsent⟩ := h
    refine ⟨hst, ?_⟩
    rcases hsent with ⟨h1, _⟩ | ⟨h1, _⟩ <;> rw [h1] <;> rfl

/-! ## Lemmas on `RecordMapper` and the bulk loaders -/

theorem next_of_err (r : RecordMapper) (e : GoError) (h : r.err = some e) :
    r.next = (("", some e), r) := by
  simp [RecordMapper.next, h]

theorem next_of_end (r : RecordMapper) (h : r.err = none) (hlen : r.Record.length ≤ r.offset) :
    r.next = (("", some GoError.tooManyRead), { r with err := some GoError.tooManyRead }) := by
  simp [RecordMapper.next, h, hlen]

theorem next_of_field (r : RecordMapper) (h : r.err = none) (hlen : r.offset < r.Record.length) :
    r.next = ((r.Record.getD r.offset "", none), { r with offset := r.offset + 1 }) := by
  have : ¬ r.Record.length ≤ r.offset := by omega
  simp [RecordMapper.next, h, this]

theorem readField_err_none_iff {F : Type} (fm : FloatModel F) (k : FieldKind)
    (r : RecordMapper) :
    (readField fm k r).err = none ↔
      r.err = none ∧ r.offset < r.Record.length ∧
        fieldOK fm k (r.Record.getD r.offset "") := by
  cases herr : r.err with
  | some e =>
    cases k <;> simp [readField, RecordMapper.NextInt, RecordMapper.NextString,
      RecordMapper.NextFloat, next_of_err r e herr, herr]
  | none =>
    by_cases hlen : r.offset < r.Record.length
    · cases k
      · simp only [readField, RecordMapper.NextInt, next_of_field r herr hlen, fieldOK]
        generalize r.Record.getD r.offset "" = s
        cases hp : (Atoi s).2 <;> simp [hlen, herr]
      · simp [readField, RecordMapper.NextString, next_of_field r herr hlen, herr, hlen,
          fieldOK]
      · simp only [readField, RecordMapper.NextFloat, next_of_field r herr hlen, fieldOK]
        generalize r.Record.getD r.offset "" = s
        cases hp : (fm.ParseFloat s).2 <;> simp [hlen, herr]
    · have hle : r.Record.length ≤ r.offset := by omega
      cases k <;> simp [readField, RecordMapper.NextInt, RecordMapper.NextString,
        RecordMapper.NextFloat, next_of_end r herr hle, hlen]

theorem readField_of_err_none {F : Type} (fm : FloatModel F) (k : FieldKind)
    (r : RecordMapper) (h : (readField fm k r).err = none) :
    readField fm k r = { r with offset := r.offset + 1 } := by
  obtain ⟨herr, hlen, hok⟩ := (readField_err_none_iff fm k r).mp h
  cases k
  · have hp : (Atoi (r.Record.getD r.offset "")).2 = none := hok
    simp only [readField, RecordMapper.NextInt, next_of_field r herr hlen, hp]
  · simp only [readField, RecordMapper.NextString, next_of_field r herr hlen]
  · have hp : (fm.ParseFloat (r.Record.getD r.offset "")).2 = none := hok
    simp only [readField, RecordMapper.NextFloat, next_of_field r herr hlen, hp]

theorem readFields_err_none_iff {F : Type} (fm : FloatModel F) (ks : List FieldKind)
    (r : RecordMapper) (hinv : r.offset ≤ r.Record.length) :
    (readFields fm ks r).err = none ↔
      r.err = none ∧ r.offset + ks.length ≤ r.Record.length ∧
        ∀ j (k : FieldKind), ks[j]? = some k →
          fieldOK fm k (r.Record.getD (r.offset + j) "") := by
  induction ks generalizing r with
  | nil => simpa [readFields] using fun _ => hinv
  | cons k ks ih =>
    rw [readFields]
    constructor
    · intro h
      have h1 : (readField fm k r).err = none := by
        by_contra hne
        obtain ⟨e, he⟩ := Option.ne_none_iff_exists'.mp hne
        have hsticky : ∀ (ks : List FieldKind) (r : RecordMapper), r.err = some e →
            (readFields fm ks r).err = some e := by
          intro ks
          induction ks with
          | nil => intro r hr; simpa [readFields] using hr
          | cons k ks ih2 =>
            intro r hr
            rw [readFields]
            apply ih2
            cases k <;> simp [readField, RecordMapper.NextInt, RecordMapper.NextString,
              RecordMapper.NextFloat, next_of_err r e hr, hr]
        rw [hsticky ks _ he] at h
        exact Option.noConfusion h
      have hr := readField_of_err_none fm k r h1
      obtain ⟨herr, hlen, hok⟩ := (readField_err_none_iff fm k r).mp h1
      have hinv2 : (readField fm k r).offset ≤ (readField fm k r).Record.length := by
        rw [hr]; exact hlen
      obtain ⟨_, h2, h3⟩ := (ih _ hinv2).mp h
      rw [hr] at h2 h3
      simp only [List.length_cons] at h2 ⊢
      refine ⟨herr, by omega, ?_⟩
      intro j k2 hj
      cases j with
      | zero =>
        simp at hj
        subst hj
        simpa using hok
      | succ j =>
        simp at hj
        have := h3 j k2 hj
        simpa [Nat.add_assoc, Nat.add_comm 1 j] using this
    · rintro ⟨herr, hlen, hok⟩
      simp only [List.length_cons] at hlen
      have h0 : fieldOK fm k (r.Record.getD r.offset "") := by
        simpa using hok 0 k (by simp)
      have h1 : (readField fm k r).err = none :=
        (readField_err_none_iff fm k r).mpr ⟨herr, by omega, h0⟩
      have hr := readField_of_err_none fm k r h1
      have hinv2 : (readField fm k r).offset ≤ (readField fm k r).Record.length := by
        rw [hr]; simp only []; omega
      rw [ih _ hinv2]
      refine ⟨h1, ?_, ?_⟩
      · rw [hr]; simp only []; omega
      · intro j k2 hj
        rw [hr]
        have := hok (j + 1) k2 (by simpa using hj)
        simpa [Nat.add_assoc, Nat.add_comm 1 j] using this

theorem postChairRow_mapper {F : Type} (fm : FloatModel F) (row : List String) :
    (postChairRow row).1 = readFields fm chairKinds ⟨row, 0, none⟩ := by
  simp only [postChairRow, readFields, readField, chairKinds]

theorem postEstateRow_mapper {F : Type} (fm : FloatModel F) (row : List String) :
    (postEstateRow fm row).1 = readFields fm estateKinds ⟨row, 0, none⟩ := by
  simp only [postEstateRow, readFields, readField, estateKinds]

theorem postChairRow_err_iff (row : List String) :
    (postChairRow row).1.Err = none ↔
      13 ≤ row.length ∧ ∀ i ∈ chairIntPositions, (Atoi (row.getD i "")).2 = none := by
  rw [RecordMapper.Err, postChairRow_mapper (⟨0, Atoi⟩ : FloatModel Int) row,
    readFields_err_none_iff _ _ _ (Nat.zero_le _)]
  simp only [chairKinds, chairIntPositions, List.length_cons, List.length_nil, Nat.zero_add,
    true_and, List.mem_cons, List.mem_singleton, forall_eq_or_imp, forall_eq]
  constructor
  · rintro ⟨hlen, h⟩
    exact ⟨hlen, h 0 _ rfl, h 4 _ rfl, h 5 _ rfl, h 6 _ rfl, h 7 _ rfl, h 11 _ rfl, h 12 _ rfl,
      by simp⟩
  · rintro ⟨hlen, h0, h4, h5, h6, h7, h11, h12, _⟩
    refine ⟨hlen, ?_⟩
    intro j k hj
    have hj13 : j < 13 := by
      by_contra hge
      rw [List.getElem?_eq_none (by simpa using hge)] at hj
      exact Option.noConfusion hj
    interval_cases j <;> simp at hj <;> subst hj <;> simp only [fieldOK, Nat.zero_add] <;>
      trivial

theorem postEstateRow_err_iff {F : Type} (fm : FloatModel F) (row : List String) :
    (postEstateRow fm row).1.Err = none ↔
      12 ≤ row.length ∧ (∀ i ∈ estateIntPositions, (Atoi (row.getD i "")).2 = none) ∧
        ∀ i ∈ estateFloatPositions, (fm.ParseFloat (row.getD i "")).2 = none := by
  rw [RecordMapper.Err, postEstateRow_mapper fm row,
    readFields_err_none_iff _ _ _ (Nat.zero_le _)]
  simp only [estateKinds, estateIntPositions, estateFloatPositions, List.length_cons,
    List.length_nil, Nat.zero_add, true_and, List.mem_cons, List.mem_singleton,
    forall_eq_or_imp, forall_eq]
  constructor
  · rintro ⟨hlen, h⟩
    exact ⟨hlen, ⟨h 0 _ rfl, h 7 _ rfl, h 8 _ rfl, h 9 _ rfl, h 11 _ rfl, by simp⟩,
      h 5 _ rfl, h 6 _ rfl, by simp⟩
  · rintro ⟨hlen, ⟨h0, h7, h8, h9, h11, _⟩, h5, h6, _⟩
    refine ⟨hlen, ?_⟩
    intro j k hj
    have hj12 : j < 12 := by
      by_contra hge
      rw [List.getElem?_eq_none (by simpa using hge)] at hj
      exact Option.noConfusion hj
    interval_cases j <;> simp at hj <;> subst hj <;> simp only [fieldOK, Nat.zero_add] <;>
      trivial

theorem postChairLoop_eq (rows : List (List String)) (chairs : List Chair) :
    postChairLoop rows chairs =
      if ∀ row ∈ rows, (postChairRow row).1.Err = none then
        some (chairs ++ rows.map (fun row => (postChairRow row).2))
      else none := by
  induction rows generalizing chairs with
  | nil => simp [postChairLoop]
  | cons row rest ih =>
    rw [postChairLoop]
    cases h : (postChairRow row).1.Err with
    | some e => simp [h]
    | none => simp [h, ih]

theorem postEstateLoop_eq {F : Type} (fm : FloatModel F) (rows : List (List String))
    (estates : List (Estate F)) :
    postEstateLoop fm rows estates =
      if ∀ row ∈ rows, (postEstateRow fm row).1.Err = none then
        some (estates ++ rows.map (fun row => (postEstateRow fm row).2))
      else none := by
  induction rows generalizing estates with
  | nil => simp [postEstateLoop]
  | cons row rest ih =>
    rw [postEstateLoop]
    cases h : (postEstateRow fm row).1.Err with
    | some e => simp [h]
    | none => simp [h, ih]

theorem postChair_records {σc σe F : Type}
    (NamedExec : σc → String → List Chair → Except DbError σc)
    (rows : List (List String)) (w : World σc σe F) :
    postChair NamedExec (Upload.records rows) w =
      if ∀ row ∈ rows, (postChairRow row).1.Err = none then
        match NamedExec w.chairDb insertChairStmt (rows.map (fun row => (postChairRow row).2)) with
        | Except.error _ => (NoContent StatusInternalServerError, w)
        | Except.ok db =>
          (NoContent StatusCreated,
            { w with chairDb := db, caches := { w.caches with lowPricedChairCache := none } })
      else (NoContent StatusBadRequest, w) := by
  simp only [postChair, postChairLoop_eq]
  split_ifs <;> simp

theorem postEstate_records {σc σe F : Type} (fm : FloatModel F)
    (NamedExec : σe → String → List (Estate F) → Except DbError σe)
    (rows : List (List String)) (w : World σc σe F) :
    postEstate fm NamedExec (Upload.records rows) w =
      if ∀ row ∈ rows, (postEstateRow fm row).1.Err = none then
        match NamedExec w.estateDb insertEstateStmt
            (rows.map (fun row => (postEstateRow fm row).2)) with
        | Except.error _ => (NoContent StatusInternalServerError, w)
        | Except.ok db =>
          (NoContent StatusCreated,
            { w with estateDb := db, caches := { w.caches with lowPricedEstateCache := none } })
      else (NoContent StatusBadRequest, w) := by
  simp only [postEstate, postEstateLoop_eq]
  split_ifs <;> simp

theorem postChairRow_value (f0 f1 f2 f3 f4 f5 f6 f7 f8 f9 f10 f11 f12 : String)
    (rest : List String)
    (h0 : (Atoi f0).2 = none) (h4 : (Atoi f4).2 = none) (h5 : (Atoi f5).2 = none)
    (h6 : (Atoi f6).2 = none) (h7 : (Atoi f7).2 = none) (h11 : (Atoi f11).2 = none)
    (h12 : (Atoi f12).2 = none) :
    (postChairRow (f0 :: f1 :: f2 :: f3 :: f4 :: f5 :: f6 :: f7 :: f8 :: f9 :: f10 :: f11 ::
        f12 :: rest)).2 =
      { ID := (Atoi f0).1, Name := f1, Description := f2, Thumbnail := f3,
        Price := (Atoi f4).1, PriceRange := 0, Height := (Atoi f5).1, HeightRange := 0,
        Width := (Atoi f6).1, WidthRange := 0, Depth := (Atoi f7).1, DepthRange := 0,
        Color := f8, Features := f9, Kind := f10, Popularity := (Atoi f11).1,
        PopularityM := 0, Stock := (Atoi f12).1, InStock := false } := by
  simp [postChairRow, RecordMapper.NextInt, RecordMapper.NextString, RecordMapper.next,
    h0, h4, h5, h6, h7, h11, h12]

theorem postEstateRow_value {F : Type} (fm : FloatModel F)
    (g0 g1 g2 g3 g4 g5 g6 g7 g8 g9 g10 g11 : String) (rest : List String)
    (h0 : (Atoi g0).2 = none) (h5 : (fm.ParseFloat g5).2 = none)
    (h6 : (fm.ParseFloat g6).2 = none) (h7 : (Atoi g7).2 = none)
    (h8 : (Atoi g8).2 = none) (h9 : (Atoi g9).2 = none) (h11 : (Atoi g11).2 = none) :
    (postEstateRow fm (g0 :: g1 :: g2 :: g3 :: g4 :: g5 :: g6 :: g7 :: g8 :: g9 :: g10 ::
        g11 :: rest)).2 =
      { ID := (Atoi g0).1, Thumbnail := g3, Name := g1, Description := g2,
        Latitude := (fm.ParseFloat g5).1, Longitude := (fm.ParseFloat g6).1, Address := g4,
        Rent := (Atoi g7).1, RentRange := 0, DoorHeight := (Atoi g8).1, DoorHRange := 0,
        DoorWidth := (Atoi g9).1, DoorWRange := 0, Features := g10,
        Popularity := (Atoi g11).1, PopularityM := 0, Point := none } := by
  simp [postEstateRow, RecordMapper.NextInt, RecordMapper.NextString, RecordMapper.NextFloat,
    RecordMapper.next, h0, h5, h6, h7, h8, h9, h11]

theorem exists_fields_of_length_13 (l : List String) (h : l.length = 13) :
    ∃ f0 f1 f2 f3 f4 f5 f6 f7 f8 f9 f10 f11 f12 : String,
      l = [f0, f1, f2, f3, f4, f5, f6, f7, f8, f9, f10, f11, f12] := by
  match l, h with
  | [f0, f1, f2, f3, f4, f5, f6, f7, f8, f9, f10, f11, f12], _ =>
    exact ⟨f0, f1, f2, f3, f4, f5, f6, f7, f8, f9, f10, f11, f12, rfl⟩

theorem exists_fields_of_length_12 (l : List String) (h : l.length = 12) :
    ∃ g0 g1 g2 g3 g4 g5 g6 g7 g8 g9 g10 g11 : String,
      l = [g0, g1, g2, g3, g4, g5, g6, g7, g8, g9, g10, g11] := by
  match l, h with
  | [g0, g1, g2, g3, g4, g5, g6, g7, g8, g9, g10, g11], _ =>
    exact ⟨g0, g1, g2, g3, g4, g5, g6, g7, g8, g9, g10, g11, rfl⟩

theorem postChairRow_append (crow extra : List String) (hc : crow.length = 13)
    (hcv : ∀ i ∈ chairIntPositions, (Atoi (crow.getD i "")).2 = none) :
    (postChairRow (crow ++ extra)).1.Err = none ∧
    (postChairRow (crow ++ extra)).2 = (postChairRow crow).2 := by
  obtain ⟨f0, f1, f2, f3, f4, f5, f6, f7, f8, f9, f10, f11, f12, rfl⟩ :=
    exists_fields_of_length_13 crow hc
  simp only [chairIntPositions, List.mem_cons, List.mem_singleton, forall_eq_or_imp,
    forall_eq] at hcv
  obtain ⟨h0, h4, h5, h6, h7, h11, h12, _⟩ := hcv
  simp only [List.getD_cons_zero, List.getD_cons_succ] at h0 h4 h5 h6 h7 h11 h12
  constructor
  · rw [postChairRow_err_iff]
    refine ⟨by simp, ?_⟩
    simp only [chairIntPositions, List.mem_cons, List.mem_singleton, forall_eq_or_imp,
      forall_eq, List.cons_append, List.getD_cons_zero, List.getD_cons_succ]
    exact ⟨h0, h4, h5, h6, h7, h11, h12, by simp⟩
  · rw [List.cons_append, List.cons_append, List.cons_append, List.cons_append,
      List.cons_append, List.cons_append, List.cons_append, List.cons_append,
      List.cons_append, List.cons_append, List.cons_append, List.cons_append,
      List.cons_append, List.nil_append,
      postChairRow_value _ _ _ _ _ _ _ _ _ _ _ _ _ _ h0 h4 h5 h6 h7 h11 h12,
      postChairRow_value _ _ _ _ _ _ _ _ _ _ _ _ _ _ h0 h4 h5 h6 h7 h11 h12]

theorem postEstateRow_append {F : Type} (fm : FloatModel F) (erow extra : List String)
    (he : erow.length = 12)
    (hev : ∀ i ∈ estateIntPositions, (Atoi (erow.getD i "")).2 = none)
    (hef : ∀ i ∈ estateFloatPositions, (fm.ParseFloat (erow.getD i "")).2 = none) :
    (postEstateRow fm (erow ++ extra)).1.Err = none ∧
    (postEstateRow fm (erow ++ extra)).2 = (postEstateRow fm erow).2 := by
  obtain ⟨g0, g1, g2, g3, g4, g5, g6, g7, g8, g9, g10, g11, rfl⟩ :=
    exists_fields_of_length_12 erow he
  simp only [estateIntPositions, estateFloatPositions, List.mem_cons, List.mem_singleton,
    forall_eq_or_imp, forall_eq] at hev hef
  obtain ⟨h0, h7, h8, h9, h11, _⟩ := hev
  obtain ⟨h5, h6, _⟩ := hef
  simp only [List.getD_cons_zero, List.getD_cons_succ] at h0 h5 h6 h7 h8 h9 h11
  constructor
  · rw [postEstateRow_err_iff]
    refine ⟨by simp, ?_, ?_⟩
    · simp only [estateIntPositions, List.mem_cons, List.mem_singleton, forall_eq_or_imp,
        forall_eq, List.cons_append, List.getD_cons_zero, List.getD_cons_succ]
      exact ⟨h0, h7, h8, h9, h11, by simp⟩
    · simp only [estateFloatPositions, List.mem_cons, List.mem_singleton, forall_eq_or_imp,
        forall_eq, List.cons_append, List.getD_cons_zero, List.getD_cons_succ]
      exact ⟨h5, h6, by simp⟩
  · rw [List.cons_append, List.cons_append, List.cons_append, List.cons_append,
      List.cons_append, List.cons_append, List.cons_append, List.cons_append,
      List.cons_append, List.cons_append, List.cons_append, List.cons_append,
      List.nil_append,
      postEstateRow_value fm _ _ _ _ _ _ _ _ _ _ _ _ _ h0 h5 h6 h7 h8 h9 h11,
      postEstateRow_value fm _ _ _ _ _ _ _ _ _ _ _ _ _ h0 h5 h6 h7 h8 h9 h11]

theorem postChair_status_of_parsed {σc σe F : Type}
    (NamedExec : σc → String → List Chair → Except DbError σc)
    (rows : List (List String)) (w : World σc σe F)
    (h : ∀ row ∈ rows, (postChairRow row).1.Err = none) :
    (postChair NamedExec (Upload.records rows) w).1.status ≠ StatusBadRequest := by
  rw [postChair_records, if_pos h]
  cases NamedExec w.chairDb insertChairStmt (rows.map (fun row => (postChairRow row).2)) <;>
    simp [NoContent]

theorem postEstate_status_of_parsed {σc σe F : Type} (fm : FloatModel F)
    (NamedExec : σe → String → List (Estate F) → Except DbError σe)
    (rows : List (List String)) (w : World σc σe F)
    (h : ∀ row ∈ rows, (postEstateRow fm row).1.Err = none) :
    (postEstate fm NamedExec (Upload.records rows) w).1.status ≠ StatusBadRequest := by
  rw [postEstate_records, if_pos h]
  cases NamedExec w.estateDb insertEstateStmt
      (rows.map (fun row => (postEstateRow fm row).2)) <;>
    simp [NoContent]

/-! ## The claims -/

/-- C1 (the code departs from the claim): a bucket id that parses as an integer
outside `[0, 3]` is not rejected. `searchChairs` with `priceRangeId=7` and
`searchEstates` with `rentRangeId=-1` answer with a status other than 400
whatever the store returns, and the first query they send carries the id in its
text. -/
theorem bucket_id_out_of_range_is_queried :
    (∀ db : SearchDb Chair,
      (searchChairs db (bucketSearch "priceRangeId" "7")).1.status ≠ StatusBadRequest ∧
      (searchChairs db (bucketSearch "priceRangeId" "7")).2.head?
        = some ⟨"SELECT COUNT(*) FROM chair WHERE price_range=7 AND `in_stock` = 1", []⟩) ∧
    (∀ (F : Type) (db : SearchDb (Estate F)),
      (searchEstates db (bucketSearch "rentRangeId" "-1")).1.status ≠ StatusBadRequest ∧
      (searchEstates db (bucketSearch "rentRangeId" "-1")).2.head?
        = some ⟨"SELECT COUNT(*) FROM estate WHERE rent_range=-1", []⟩) := by
  constructor
  · intro db
    have hc : searchChairsConditions (bucketSearch "priceRangeId" "7")
        = some (["price_range=7"], []) := by decide
    have h := runSearch_accepts "SELECT * FROM chair WHERE " "SELECT COUNT(*) FROM chair WHERE "
      ChairSearchResponse.mk db (bucketSearch "priceRangeId" "7")
      (["price_range=7"] ++ ["`in_stock` = 1"]) [] 0 10 (by decide) (by decide)
    have ht : "SELECT COUNT(*) FROM chair WHERE " ++
        Join (["price_range=7"] ++ ["`in_stock` = 1"]) " AND "
        = "SELECT COUNT(*) FROM chair WHERE price_range=7 AND `in_stock` = 1" := by decide
    rw [ht] at h
    simpa [searchChairs, hc] using h
  · intro F db
    have hc : searchEstatesConditions (bucketSearch "rentRangeId" "-1")
        = some (["rent_range=-1"], []) := by decide
    have h := runSearch_accepts "SELECT * FROM estate WHERE "
      "SELECT COUNT(*) FROM estate WHERE "
      EstateSearchResponse.mk db (bucketSearch "rentRangeId" "-1")
      ["rent_range=-1"] [] 0 10 (by decide) (by decide)
    have ht : "SELECT COUNT(*) FROM estate WHERE " ++ Join ["rent_range=-1"] " AND "
        = "SELECT COUNT(*) FROM estate WHERE rent_range=-1" := by decide
    rw [ht] at h
    simpa [searchEstates, hc] using h

/-- C2 (the code departs from the claim): a bucket id that does not parse as an
integer is not rejected. For `"abc"` the call `strconv.Atoi` returns the value
`0` with a syntax error, the guard `err != nil && !(0 <= rangeIndex && rangeIndex <= 3)`
is false, and the handlers query bucket `0`. -/
theorem bucket_id_non_numeric_is_queried :
    Atoi "abc" = (0, some NumError.syntaxErr) ∧
    (∀ db : SearchDb Chair,
      (searchChairs db (bucketSearch "priceRangeId" "abc")).1.status ≠ StatusBadRequest ∧
      (searchChairs db (bucketSearch "priceRangeId" "abc")).2.head?
        = some ⟨"SELECT COUNT(*) FROM chair WHERE price_range=0 AND `in_stock` = 1", []⟩) ∧
    (∀ (F : Type) (db : SearchDb (Estate F)),
      (searchEstates db (bucketSearch "rentRangeId" "abc")).1.status ≠ StatusBadRequest ∧
      (searchEstates db (bucketSearch "rentRangeId" "abc")).2.head?
        = some ⟨"SELECT COUNT(*) FROM estate WHERE rent_range=0", []⟩) := by
  refine ⟨by decide, ?_, ?_⟩
  · intro db
    have hc : searchChairsConditions (bucketSearch "priceRangeId" "abc")
        = some (["price_range=0"], []) := by decide
    have h := runSearch_accepts "SELECT * FROM chair WHERE " "SELECT COUNT(*) FROM chair WHERE "
      ChairSearchResponse.mk db (bucketSearch "priceRangeId" "abc")
      (["price_range=0"] ++ ["`in_stock` = 1"]) [] 0 10 (by decide) (by decide)
    have ht : "SELECT COUNT(*) FROM chair WHERE " ++
        Join (["price_range=0"] ++ ["`in_stock` = 1"]) " AND "
        = "SELECT COUNT(*) FROM chair WHERE price_range=0 AND `in_stock` = 1" := by decide
    rw [ht] at h
    simpa [searchChairs, hc] using h
  · intro F db
    have hc : searchEstatesConditions (bucketSearch "rentRangeId" "abc")
        = some (["rent_range=0"], []) := by decide
    have h := runSearch_accepts "SELECT * FROM estate WHERE "
      "SELECT COUNT(*) FROM estate WHERE "
      EstateSearchResponse.mk db (bucketSearch "rentRangeId" "abc")
      ["rent_range=0"] [] 0 10 (by decide) (by decide)
    have ht : "SELECT COUNT(*) FROM estate WHERE " ++ Join ["rent_range=0"] " AND "
        = "SELECT COUNT(*) FROM estate WHERE rent_range=0" := by decide
    rw [ht] at h
    simpa [searchEstates, hc] using h

/-- C3: when every recognised facet parameter is absent or empty, `searchChairs`
and `searchEstates` answer 400 and send no query to the store, whatever `page`
and `perPage` are; the condition on `in_stock` that `searchChairs` always adds
does not count. -/
theorem search_without_facets_is_bad_request {F : Type} (cdb : SearchDb Chair)
    (edb : SearchDb (Estate F)) (c d : Context)
    (hc : noChairFacet c) (hd : noEstateFacet d) :
    searchChairs cdb c = (NoContent StatusBadRequest, []) ∧
    searchEstates edb d = (NoContent StatusBadRequest, []) := by
  obtain ⟨h1, h2, h3, h4, h5, h6, h7⟩ := hc
  obtain ⟨g1, g2, g3, g4⟩ := hd
  constructor
  · simp [searchChairs, searchChairsConditions, h1, h2, h3, h4, h5, h6, h7, rangeFacet_empty,
      equalityFacet, featuresFacet]
  · simp [searchEstates, searchEstatesConditions, g1, g2, g3, g4, rangeFacet_empty,
      featuresFacet]

theorem search_without_facets_is_bad_request_witness :
    noChairFacet (Context.ofPairs [("page", "0"), ("perPage", "10")]) ∧
    noEstateFacet (Context.ofPairs [("page", "3"), ("perPage", "x")]) ∧
    searchChairs sampleChairDb (Context.ofPairs [("page", "0"), ("perPage", "10")])
      = (NoContent StatusBadRequest, []) ∧
    searchEstates sampleEstateDb (Context.ofPairs [("page", "3"), ("perPage", "x")])
      = (NoContent StatusBadRequest, []) :=
  ⟨by decide, by decide,
    search_without_facets_is_bad_request sampleChairDb sampleEstateDb _ _
      (by decide) (by decide)⟩

/-- C4: for every accepted search (one not answered with 400) the count query is
`"SELECT COUNT(*) FROM <table> WHERE " ++ P` and the select query is
`"SELECT * FROM <table> WHERE " ++ P ++ " ORDER BY popularity_m ASC, id ASC LIMIT ? OFFSET ?"`
for one predicate text `P`, and the select query is bound to the parameters of
the count query followed by `perPage` and the offset `page * perPage` (the
product of Go `int` values, see `wrap64_of_inRange`). The count query is sent
first; the select query is sent when the count query succeeded. -/
theorem search_count_and_select_share_predicate {F : Type} (cdb : SearchDb Chair)
    (edb : SearchDb (Estate F)) (c d : Context)
    (hc : (searchChairs cdb c).1.status ≠ StatusBadRequest)
    (hd : (searchEstates edb d).1.status ≠ StatusBadRequest) :
    SearchQueriesShape cdb "SELECT COUNT(*) FROM chair WHERE " "SELECT * FROM chair WHERE " c
      (searchChairs cdb c).2 ∧
    SearchQueriesShape edb "SELECT COUNT(*) FROM estate WHERE " "SELECT * FROM estate WHERE " d
      (searchEstates edb d).2 := by
  constructor
  · rcases searchChairs_shape cdb c with h | ⟨_, _, _, _, h, _⟩
    · exact absurd h.1 hc
    · exact h
  · rcases searchEstates_shape edb d with h | ⟨_, _, _, _, h, _⟩
    · exact absurd h.1 hd
    · exact h

theorem search_count_and_select_share_predicate_witness :
    (searchChairs sampleChairDb chairSearchA).1.status ≠ StatusBadRequest ∧
    (searchEstates sampleEstateDb estateSearchA).1.status ≠ StatusBadRequest ∧
    SearchQueriesShape sampleChairDb
      "SELECT COUNT(*) FROM chair WHERE " "SELECT * FROM chair WHERE " chairSearchA
      (searchChairs sampleChairDb chairSearchA).2 ∧
    SearchQueriesShape sampleEstateDb
      "SELECT COUNT(*) FROM estate WHERE " "SELECT * FROM estate WHERE " estateSearchA
      (searchEstates sampleEstateDb estateSearchA).2 :=
  ⟨by decide, by decide,
    search_count_and_select_share_predicate sampleChairDb sampleEstateDb
      chairSearchA estateSearchA (by decide) (by decide)⟩

/-- C5: the text of the search queries does not depend on the values of `kind`,
`color` and `features`. For two requests that agree on the bucket-id
parameters, on which of `kind`, `color` and `features` are non-empty and on the
number of commas in `features`, the queries sent by `searchChairs` (and by
`searchEstates`) have identical texts position by position; the values occur in
the bound arguments, which are `boundValues`, followed by two integers in the
select query. -/
theorem search_text_independent_of_values {F : Type} (cdb1 cdb2 : SearchDb Chair)
    (edb1 edb2 : SearchDb (Estate F)) (c1 c2 d1 d2 : Context)
    (hc : sameChairFacetShape c1 c2) (hd : sameEstateFacetShape d1 d2) :
    (∀ (i : Nat) (q1 q2 : Query), (searchChairs cdb1 c1).2[i]? = some q1 →
      (searchChairs cdb2 c2).2[i]? = some q2 → q1.text = q2.text) ∧
    (∀ q ∈ (searchChairs cdb1 c1).2,
      q.args = boundValues (c1.QueryParam "kind") (c1.QueryParam "color")
          (c1.QueryParam "features") ∨
      ∃ perPage offset : Int,
        q.args = boundValues (c1.QueryParam "kind") (c1.QueryParam "color")
          (c1.QueryParam "features") ++ [SqlArg.int perPage, SqlArg.int offset]) ∧
    (∀ (i : Nat) (q1 q2 : Query), (searchEstates edb1 d1).2[i]? = some q1 →
      (searchEstates edb2 d2).2[i]? = some q2 → q1.text = q2.text) ∧
    (∀ q ∈ (searchEstates edb1 d1).2,
      q.args = boundValues "" "" (d1.QueryParam "features") ∨
      ∃ perPage offset : Int,
        q.args = boundValues "" "" (d1.QueryParam "features")
          ++ [SqlArg.int perPage, SqlArg.int offset]) := by
  refine ⟨?_, ?_, ?_, ?_⟩
  · intro i q1 q2 h1 h2
    rcases searchChairs_shape cdb1 c1 with h | ⟨_, conds1, params1, hc1, _, _, ht1⟩
    · rw [h.2] at h1; simp at h1
    rcases searchChairs_shape cdb2 c2 with h | ⟨_, conds2, params2, hc2, _, _, ht2⟩
    · rw [h.2] at h2; simp at h2
    have hfst := searchChairsConditions_text c1 c2 hc
    rw [hc1, hc2] at hfst
    simp only [Option.map_some', Option.some.injEq] at hfst
    have e1 := ht1 i q1 h1
    have e2 := ht2 i q2 h2
    rw [hfst] at e1
    rw [e1] at e2
    exact Option.some.inj e2
  · intro q hq
    rcases searchChairs_shape cdb1 c1 with h | ⟨_, conds1, params1, hc1, hs, ha, _⟩
    · rw [h.2] at hq; simp at hq
    have hargs := searchChairsConditions_args c1 conds1 params1 hc1
    obtain ⟨P, args, page, perPage, _, _, hsent⟩ := hs
    rcases hsent with ⟨h1, _⟩ | ⟨h1, _⟩
    · have := ha ⟨_, args⟩ (by rw [h1]; rfl)
      simp only [] at this
      rw [h1] at hq
      simp at hq
      left
      rw [hq, ← hargs, ← this]
    · have := ha ⟨_, args⟩ (by rw [h1]; rfl)
      simp only [] at this
      rw [h1] at hq
      simp at hq
      rcases hq with hq | hq
      · left
        rw [hq, ← hargs, ← this]
      · right
        exact ⟨perPage, wrap64 (page * perPage), by rw [hq, ← hargs, ← this]⟩
  · intro i q1 q2 h1 h2
    rcases searchEstates_shape edb1 d1 with h | ⟨_, conds1, params1, hc1, _, _, ht1⟩
    · rw [h.2] at h1; simp at h1
    rcases searchEstates_shape edb2 d2 with h | ⟨_, conds2, params2, hc2, _, _, ht2⟩
    · rw [h.2] at h2; simp at h2
    have hfst := searchEstatesConditions_text d1 d2 hd
    rw [hc1, hc2] at hfst
    simp only [Option.map_some', Option.some.injEq] at hfst
    have e1 := ht1 i q1 h1
    have e2 := ht2 i q2 h2
    rw [hfst] at e1
    rw [e1] at e2
    exact Option.some.inj e2
  · intro q hq
    rcases searchEstates_shape edb1 d1 with h | ⟨_, conds1, params1, hc1, hs, ha, _⟩
    · rw [h.2] at hq; simp at hq
    have hargs := searchEstatesConditions_args d1 conds1 params1 hc1
    obtain ⟨P, args, page, perPage, _, _, hsent⟩ := hs
    rcases hsent with ⟨h1, _⟩ | ⟨h1, _⟩
    · have := ha ⟨_, args⟩ (by rw [h1]; rfl)
      simp only [] at this
      rw [h1] at hq
      simp at hq
      left
      rw [hq, ← hargs, ← this]
    · have := ha ⟨_, args⟩ (by rw [h1]; rfl)
      simp only [] at this
      rw [h1] at hq
      simp at hq
      rcases hq with hq | hq
      · left
        rw [hq, ← hargs, ← this]
      · right
        exact ⟨perPage, wrap64 (page * perPage), by rw [hq, ← hargs, ← this]⟩

theorem search_text_independent_of_values_witness :
    sameChairFacetShape chairSearchA chairSearchB ∧
    sameEstateFacetShape estateSearchA estateSearchB ∧
    (searchChairs sampleChairDb chairSearchA).2.length = 2 ∧
    (searchChairs sampleChairDb chairSearchB).2.length = 2 ∧
    (∀ (i : Nat) (q1 q2 : Query), (searchChairs sampleChairDb chairSearchA).2[i]? = some q1 →
      (searchChairs sampleChairDb chairSearchB).2[i]? = some q2 → q1.text = q2.text) :=
  ⟨by decide, by decide, by decide, by decide,
    (search_text_independent_of_values sampleChairDb sampleChairDb sampleEstateDb
      sampleEstateDb chairSearchA chairSearchB estateSearchA estateSearchB
      (by decide) (by decide)).1⟩

/-- C6: a row with too few fields (fewer than 13 for a chair, fewer than 12 for
an estate) or with a non-numeric value in a numeric position leaves
`RecordMapper.Err()` non-nil after its fields are consumed, and an upload that
contains such a row is answered with 400, the world unchanged. -/
theorem malformed_row_rejects_upload {σc σe F : Type} (fm : FloatModel F)
    (execC : σc → String → List Chair → Except DbError σc)
    (execE : σe → String → List (Estate F) → Except DbError σe)
    (w : World σc σe F) (crows erows : List (List String)) (crow erow : List String)
    (hc : crow ∈ crows) (hcm : malformedChairRow crow)
    (he : erow ∈ erows) (hem : malformedEstateRow fm erow) :
    (postChairRow crow).1.Err ≠ none ∧
    postChair execC (Upload.records crows) w = (NoContent StatusBadRequest, w) ∧
    (postEstateRow fm erow).1.Err ≠ none ∧
    postEstate fm execE (Upload.records erows) w = (NoContent StatusBadRequest, w) := by
  have h1 : (postChairRow crow).1.Err ≠ none := by
    intro h
    obtain ⟨hlen, hv⟩ := (postChairRow_err_iff crow).mp h
    rcases hcm with hs | ⟨i, hi, _, hbad⟩
    · omega
    · exact hbad (hv i hi)
  have h2 : (postEstateRow fm erow).1.Err ≠ none := by
    intro h
    obtain ⟨hlen, hv, hf⟩ := (postEstateRow_err_iff fm erow).mp h
    rcases hem with hs | ⟨i, hi, _, hbad⟩ | ⟨i, hi, _, hbad⟩
    · omega
    · exact hbad (hv i hi)
    · exact hbad (hf i hi)
  refine ⟨h1, ?_, h2, ?_⟩
  · rw [postChair_records, if_neg]
    exact fun hall => h1 (hall crow hc)
  · rw [postEstate_records, if_neg]
    exact fun hall => h2 (hall erow he)

theorem malformed_row_rejects_upload_witness :
    shortChairRow ∈ [sampleChairRow, shortChairRow] ∧
    malformedChairRow shortChairRow ∧
    badLatitudeEstateRow ∈ [badLatitudeEstateRow, sampleEstateRow] ∧
    malformedEstateRow intCoordinates badLatitudeEstateRow ∧
    ((postChairRow shortChairRow).1.Err ≠ none ∧
     postChair appendRows (Upload.records [sampleChairRow, shortChairRow]) emptyWorld
       = (NoContent StatusBadRequest, emptyWorld) ∧
     (postEstateRow intCoordinates badLatitudeEstateRow).1.Err ≠ none ∧
     postEstate intCoordinates appendRows
       (Upload.records [badLatitudeEstateRow, sampleEstateRow]) emptyWorld
       = (NoContent StatusBadRequest, emptyWorld)) :=
  ⟨by decide, by decide, by decide, by decide,
    malformed_row_rejects_upload intCoordinates appendRows appendRows emptyWorld
      [sampleChairRow, shortChairRow] [badLatitudeEstateRow, sampleEstateRow]
      shortChairRow badLatitudeEstateRow (by decide) (by decide) (by decide) (by decide)⟩

/-- C7 (refuted as stated): a row with a trailing extra field is not rejected.
The fourteen-field chair row `extraFieldChairRow` and the thirteen-field estate
row `extraFieldEstateRow` leave `Err()` nil, and the uploads made of them are
answered with 201 and inserted. -/
theorem trailing_field_row_is_loaded :
    extraFieldChairRow.length = 14 ∧
    (postChairRow extraFieldChairRow).1.Err = none ∧
    (postChair appendRows (Upload.records [extraFieldChairRow]) emptyWorld).1.status
      = StatusCreated ∧
    (postChair appendRows (Upload.records [extraFieldChairRow]) emptyWorld).1.status
      ≠ StatusBadRequest ∧
    (postChair appendRows (Upload.records [extraFieldChairRow]) emptyWorld).2.chairDb.length = 1 ∧
    extraFieldEstateRow.length = 13 ∧
    (postEstateRow intCoordinates extraFieldEstateRow).1.Err = none ∧
    (postEstate intCoordinates appendRows (Upload.records [extraFieldEstateRow])
      emptyWorld).1.status = StatusCreated ∧
    (postEstate intCoordinates appendRows (Upload.records [extraFieldEstateRow])
      emptyWorld).1.status ≠ StatusBadRequest ∧
    (postEstate intCoordinates appendRows (Upload.records [extraFieldEstateRow])
      emptyWorld).2.estateDb.length = 1 := by
  refine ⟨by decide, by decide, by decide, by decide, by decide, by decide, by decide,
    by decide, by decide, by decide⟩

/-- C7 (as amended): a row that carries extra fields after thirteen (chair) or
twelve (estate) valid leading fields leaves `Err()` nil, the extra fields are
ignored (the entity is the one built from the leading fields alone), and an
upload made of such a row is not answered with 400. -/
theorem trailing_fields_are_ignored {σc σe F : Type} (fm : FloatModel F)
    (execC : σc → String → List Chair → Except DbError σc)
    (execE : σe → String → List (Estate F) → Except DbError σe)
    (w : World σc σe F) (crow cextra erow eextra : List String)
    (hc : crow.length = 13)
    (hcv : ∀ i ∈ chairIntPositions, (Atoi (crow.getD i "")).2 = none)
    (he : erow.length = 12)
    (hev : ∀ i ∈ estateIntPositions, (Atoi (erow.getD i "")).2 = none)
    (hef : ∀ i ∈ estateFloatPositions, (fm.ParseFloat (erow.getD i "")).2 = none) :
    (postChairRow (crow ++ cextra)).1.Err = none ∧
    (postChairRow (crow ++ cextra)).2 = (postChairRow crow).2 ∧
    (postChair execC (Upload.records [crow ++ cextra]) w).1.status ≠ StatusBadRequest ∧
    (postEstateRow fm (erow ++ eextra)).1.Err = none ∧
    (postEstateRow fm (erow ++ eextra)).2 = (postEstateRow fm erow).2 ∧
    (postEstate fm execE (Upload.records [erow ++ eextra]) w).1.status ≠ StatusBadRequest := by
  obtain ⟨c1, c2⟩ := postChairRow_append crow cextra hc hcv
  obtain ⟨e1, e2⟩ := postEstateRow_append fm erow eextra he hev hef
  refine ⟨c1, c2, ?_, e1, e2, ?_⟩
  · exact postChair_status_of_parsed execC _ w (by simpa using c1)
  · exact postEstate_status_of_parsed fm execE _ w (by simpa using e1)

theorem trailing_fields_are_ignored_witness :
    sampleChairRow.length = 13 ∧
    (∀ i ∈ chairIntPositions, (Atoi (sampleChairRow.getD i "")).2 = none) ∧
    sampleEstateRow.length = 12 ∧
    (∀ i ∈ estateIntPositions, (Atoi (sampleEstateRow.getD i "")).2 = none) ∧
    (∀ i ∈ estateFloatPositions,
      (intCoordinates.ParseFloat (sampleEstateRow.getD i "")).2 = none) ∧
    ((postChairRow (sampleChairRow ++ ["extra"])).1.Err = none ∧
     (postChairRow (sampleChairRow ++ ["extra"])).2 = (postChairRow sampleChairRow).2 ∧
     (postChair appendRows (Upload.records [sampleChairRow ++ ["extra"]])
        emptyWorld).1.status ≠ StatusBadRequest ∧
     (postEstateRow intCoordinates (sampleEstateRow ++ ["extra"])).1.Err = none ∧
     (postEstateRow intCoordinates (sampleEstateRow ++ ["extra"])).2
        = (postEstateRow intCoordinates sampleEstateRow).2 ∧
     (postEstate intCoordinates appendRows (Upload.records [sampleEstateRow ++ ["extra"]])
        emptyWorld).1.status ≠ StatusBadRequest) :=
  ⟨by decide, by decide, by decide, by decide, by decide,
    trailing_fields_are_ignored intCoordinates appendRows appendRows emptyWorld
      sampleChairRow ["extra"] sampleEstateRow ["extra"]
      (by decide) (by decide) (by decide) (by decide) (by decide)⟩

/-- C8: bulk load is all-or-nothing. When one row of the batch fails to parse,
wherever it stands, `postChair` (resp. `postEstate`) answers 400 and returns the
world it received, stores and caches alike, whatever `NamedExec` would have
done: the insert is not issued. -/
theorem bulk_load_all_or_nothing {σc σe F : Type} (fm : FloatModel F)
    (execC : σc → String → List Chair → Except DbError σc)
    (execE : σe → String → List (Estate F) → Except DbError σe)
    (w : World σc σe F) (cpre cpost epre epost : List (List String))
    (cbad ebad : List String)
    (hc : (postChairRow cbad).1.Err ≠ none)
    (he : (postEstateRow fm ebad).1.Err ≠ none) :
    postChair execC (Upload.records (cpre ++ cbad :: cpost)) w
      = (NoContent StatusBadRequest, w) ∧
    postEstate fm execE (Upload.records (epre ++ ebad :: epost)) w
      = (NoContent StatusBadRequest, w) := by
  constructor
  · rw [postChair_records, if_neg]
    exact fun hall => hc (hall cbad (by simp))
  · rw [postEstate_records, if_neg]
    exact fun hall => he (hall ebad (by simp))

theorem bulk_load_all_or_nothing_witness :
    (postChairRow shortChairRow).1.Err ≠ none ∧
    (postEstateRow intCoordinates badLatitudeEstateRow).1.Err ≠ none ∧
    postChair appendRows
      (Upload.records ([sampleChairRow, sampleChairRow] ++ shortChairRow :: [sampleChairRow]))
      emptyWorld = (NoContent StatusBadRequest, emptyWorld) ∧
    postEstate intCoordinates appendRows
      (Upload.records ([sampleEstateRow] ++ badLatitudeEstateRow :: []))
      emptyWorld = (NoContent StatusBadRequest, emptyWorld) :=
  ⟨by decide, by decide,
    bulk_load_all_or_nothing intCoordinates appendRows appendRows emptyWorld
      [sampleChairRow, sampleChairRow] [sampleChairRow] [sampleEstateRow] []
      shortChairRow badLatitudeEstateRow (by decide) (by decide)⟩

/-- C9: parsing is positional. A chair row of exactly thirteen fields whose
fields 0, 4, 5, 6, 7, 11 and 12 are integers parses (`Err()` is nil) into the
chair with ID, Name, Description, Thumbnail, Price, Height, Width, Depth, Color,
Features, Kind, Popularity and Stock taken from the fields in that order; an
estate row of twelve fields parses into id, name, description, thumbnail,
address, latitude, longitude, rent, doorHeight, doorWidth, features and
popularity; and the loop yields one entity for each row, in the order of the
rows. -/
theorem row_parsing_is_positional {F : Type} (fm : FloatModel F)
    (f0 f1 f2 f3 f4 f5 f6 f7 f8 f9 f10 f11 f12 : String)
    (g0 g1 g2 g3 g4 g5 g6 g7 g8 g9 g10 g11 : String)
    (crows erows : List (List String))
    (hf0 : (Atoi f0).2 = none) (hf4 : (Atoi f4).2 = none) (hf5 : (Atoi f5).2 = none)
    (hf6 : (Atoi f6).2 = none) (hf7 : (Atoi f7).2 = none) (hf11 : (Atoi f11).2 = none)
    (hf12 : (Atoi f12).2 = none)
    (hg0 : (Atoi g0).2 = none) (hg5 : (fm.ParseFloat g5).2 = none)
    (hg6 : (fm.ParseFloat g6).2 = none) (hg7 : (Atoi g7).2 = none)
    (hg8 : (Atoi g8).2 = none) (hg9 : (Atoi g9).2 = none) (hg11 : (Atoi g11).2 = none)
    (hcrows : ∀ row ∈ crows, (postChairRow row).1.Err = none)
    (herows : ∀ row ∈ erows, (postEstateRow fm row).1.Err = none) :
    (postChairRow [f0, f1, f2, f3, f4, f5, f6, f7, f8, f9, f10, f11, f12]).1.Err = none ∧
    (postChairRow [f0, f1, f2, f3, f4, f5, f6, f7, f8, f9, f10, f11, f12]).2 =
      { ID := (Atoi f0).1, Name := f1, Description := f2, Thumbnail := f3,
        Price := (Atoi f4).1, PriceRange := 0, Height := (Atoi f5).1, HeightRange := 0,
        Width := (Atoi f6).1, WidthRange := 0, Depth := (Atoi f7).1, DepthRange := 0,
        Color := f8, Features := f9, Kind := f10, Popularity := (Atoi f11).1,
        PopularityM := 0, Stock := (Atoi f12).1, InStock := false } ∧
    (postEstateRow fm [g0, g1, g2, g3, g4, g5, g6, g7, g8, g9, g10, g11]).1.Err = none ∧
    (postEstateRow fm [g0, g1, g2, g3, g4, g5, g6, g7, g8, g9, g10, g11]).2 =
      { ID := (Atoi g0).1, Thumbnail := g3, Name := g1, Description := g2,
        Latitude := (fm.ParseFloat g5).1, Longitude := (fm.ParseFloat g6).1, Address := g4,
        Rent := (Atoi g7).1, RentRange := 0, DoorHeight := (Atoi g8).1, DoorHRange := 0,
        DoorWidth := (Atoi g9).1, DoorWRange := 0, Features := g10,
        Popularity := (Atoi g11).1, PopularityM := 0, Point := none } ∧
    postChairLoop crows [] = some (crows.map (fun row => (postChairRow row).2)) ∧
    postEstateLoop fm erows [] = some (erows.map (fun row => (postEstateRow fm row).2)) := by
  refine ⟨?_, postChairRow_value _ _ _ _ _ _ _ _ _ _ _ _ _ [] hf0 hf4 hf5 hf6 hf7 hf11 hf12,
    ?_, postEstateRow_value fm _ _ _ _ _ _ _ _ _ _ _ _ [] hg0 hg5 hg6 hg7 hg8 hg9 hg11,
    ?_, ?_⟩
  · rw [postChairRow_err_iff]
    refine ⟨by simp, ?_⟩
    simp only [chairIntPositions, List.mem_cons, List.mem_singleton, forall_eq_or_imp,
      forall_eq, List.getD_cons_zero, List.getD_cons_succ]
    exact ⟨hf0, hf4, hf5, hf6, hf7, hf11, hf12, by simp⟩
  · rw [postEstateRow_err_iff]
    refine ⟨by simp, ?_, ?_⟩
    · simp only [estateIntPositions, List.mem_cons, List.mem_singleton, forall_eq_or_imp,
        forall_eq, List.getD_cons_zero, List.getD_cons_succ]
      exact ⟨hg0, hg7, hg8, hg9, hg11, by simp⟩
    · simp only [estateFloatPositions, List.mem_cons, List.mem_singleton, forall_eq_or_imp,
        forall_eq, List.getD_cons_zero, List.getD_cons_succ]
      exact ⟨hg5, hg6, by simp⟩
  · rw [postChairLoop_eq, if_pos hcrows, List.nil_append]
  · rw [postEstateLoop_eq, if_pos herows, List.nil_append]

theorem row_parsing_is_positional_witness :
    (postChairRow ["1", "stool", "a stool", "/img/1.png", "2000", "80", "40", "45", "red",
        "arm,wheel", "office", "7", "3"]).2 =
      { ID := 1, Name := "stool", Description := "a stool", Thumbnail := "/img/1.png",
        Price := 2000, PriceRange := 0, Height := 80, HeightRange := 0,
        Width := 40, WidthRange := 0, Depth := 45, DepthRange := 0,
        Color := "red", Features := "arm,wheel", Kind := "office", Popularity := 7,
        PopularityM := 0, Stock := 3, InStock := false } ∧
    postChairLoop [sampleChairRow, extraFieldChairRow] []
      = some ([sampleChairRow, extraFieldChairRow].map (fun row => (postChairRow row).2)) ∧
    postEstateLoop intCoordinates [sampleEstateRow] []
      = some ([sampleEstateRow].map (fun row => (postEstateRow intCoordinates row).2)) :=
  have h := row_parsing_is_positional intCoordinates
    "1" "stool" "a stool" "/img/1.png" "2000" "80" "40" "45" "red" "arm,wheel" "office" "7" "3"
    "9" "flat" "a flat" "/img/9.png" "1-2-3 Tokyo" "35" "139" "2000" "200" "90" "bath,garden"
    "4" [sampleChairRow, extraFieldChairRow] [sampleEstateRow]
    (by decide) (by decide) (by decide) (by decide) (by decide) (by decide) (by decide)
    (by decide) (by decide) (by decide) (by decide) (by decide) (by decide) (by decide)
    (by decide) (by decide)
  ⟨h.2.1, h.2.2.2.2.1, h.2.2.2.2.2⟩

/-- C10 (refuted as stated): the loader does not classify. The chair built from
`sampleChairRow` has price 2000, which lies in the interval of index 1 of
`sampleRanges`, and `PriceRange = 0`; the estate built from `sampleEstateRow`
has rent 2000 and `RentRange = 0`; these are the entities handed to the insert. -/
theorem loader_leaves_range_bucket_unset :
    (postChairRow sampleChairRow).1.Err = none ∧
    (postChairRow sampleChairRow).2.Price = 2000 ∧
    classify sampleRanges 2000 = some 1 ∧
    (postChairRow sampleChairRow).2.PriceRange = 0 ∧
    ¬ (classify sampleRanges (postChairRow sampleChairRow).2.Price
        = some (postChairRow sampleChairRow).2.PriceRange.toNat) ∧
    ((postChair appendRows (Upload.records [sampleChairRow]) emptyWorld).2.chairDb.map
        (fun c => (c.Price, c.PriceRange, c.PopularityM))) = [(2000, 0, 0)] ∧
    (postEstateRow intCoordinates sampleEstateRow).1.Err = none ∧
    (postEstateRow intCoordinates sampleEstateRow).2.Rent = 2000 ∧
    (postEstateRow intCoordinates sampleEstateRow).2.RentRange = 0 ∧
    ¬ (classify sampleRanges (postEstateRow intCoordinates sampleEstateRow).2.Rent
        = some (postEstateRow intCoordinates sampleEstateRow).2.RentRange.toNat) ∧
    ((postEstate intCoordinates appendRows (Upload.records [sampleEstateRow])
        emptyWorld).2.estateDb.map (fun e => (e.Rent, e.RentRange, e.PopularityM)))
      = [(2000, 0, 0)] := by
  refine ⟨by decide, by decide, by decide, by decide, by decide, by decide, by decide,
    by decide, by decide, by decide, by decide⟩

/-- C10 (as amended): every entity the bulk loader hands to the insert has its
derived fields at the Go zero value: for a chair the four range buckets,
`PopularityM` and `InStock`; for an estate the three range buckets,
`PopularityM` and `Point`. The loader supplies the raw columns only. -/
theorem loader_leaves_derived_fields_zero {F : Type} (fm : FloatModel F)
    (crows erows : List (List String)) (chairs : List Chair) (estates : List (Estate F))
    (hc : postChairLoop crows [] = some chairs)
    (he : postEstateLoop fm erows [] = some estates) :
    (∀ c ∈ chairs, c.PriceRange = 0 ∧ c.HeightRange = 0 ∧ c.WidthRange = 0 ∧
      c.DepthRange = 0 ∧ c.PopularityM = 0 ∧ c.InStock = false) ∧
    (∀ e ∈ estates, e.RentRange = 0 ∧ e.DoorHRange = 0 ∧ e.DoorWRange = 0 ∧
      e.PopularityM = 0 ∧ e.Point = none) := by
  constructor
  · intro c hmem
    rw [postChairLoop_eq] at hc
    split_ifs at hc
    simp only [List.nil_append, Option.some.injEq] at hc
    subst hc
    obtain ⟨row, _, rfl⟩ := List.mem_map.mp hmem
    simp [postChairRow]
  · intro e hmem
    rw [postEstateLoop_eq] at he
    split_ifs at he
    simp only [List.nil_append, Option.some.injEq] at he
    subst he
    obtain ⟨row, _, rfl⟩ := List.mem_map.mp hmem
    simp [postEstateRow]

theorem loader_leaves_derived_fields_zero_witness :
    postChairLoop [sampleChairRow] [] = some [(postChairRow sampleChairRow).2] ∧
    postEstateLoop intCoordinates [sampleEstateRow] []
      = some [(postEstateRow intCoordinates sampleEstateRow).2] ∧
    ((∀ c ∈ [(postChairRow sampleChairRow).2], c.PriceRange = 0 ∧ c.HeightRange = 0 ∧
        c.WidthRange = 0 ∧ c.DepthRange = 0 ∧ c.PopularityM = 0 ∧ c.InStock = false) ∧
     (∀ e ∈ [(postEstateRow intCoordinates sampleEstateRow).2], e.RentRange = 0 ∧
        e.DoorHRange = 0 ∧ e.DoorWRange = 0 ∧ e.PopularityM = 0 ∧ e.Point = none)) :=
  ⟨by decide, by decide,
    loader_leaves_derived_fields_zero intCoordinates [sampleChairRow] [sampleEstateRow]
      [(postChairRow sampleChairRow).2] [(postEstateRow intCoordinates sampleEstateRow).2]
      (by decide) (by decide)⟩

/-! ## Lemmas on the purchase -/

theorem decrementStock_ids (table : List Chair) (id : Int) :
    (decrementStock table id).map (fun c => c.ID) = table.map (fun c => c.ID) := by
  unfold decrementStock
  rw [List.map_map]
  apply List.map_congr_left
  intro c _
  simp only [Function.comp]
  split <;> rfl

theorem stockOf_decrementStock (table : List Chair) (id j : Int) :
    stockOf (decrementStock table id) j =
      if j = id then (stockOf table id).map (fun s => s - 1) else stockOf table j := by
  unfold stockOf decrementStock
  induction table with
  | nil => simp
  | cons c rest ih =>
    simp only [List.map_cons, List.find?_cons]
    by_cases hc : c.ID = id <;> by_cases hj : j = id <;> by_cases hcj : c.ID = j <;>
      simp_all

theorem chairInStockForUpdate_ok (table : List Chair) (id : Int) (c : Chair) (q : Bool)
    (h : chairInStockForUpdate q table id = Except.ok c) :
    q = false ∧ c ∈ table ∧ c.ID = id ∧ c.InStock = true := by
  unfold chairInStockForUpdate at h
  cases q with
  | true => simp at h
  | false =>
    simp only [Bool.false_eq_true, if_false] at h
    cases hf : table.find? (fun c => c.ID = id ∧ c.InStock = true) with
    | none =>
      rw [hf] at h
      exact Except.noConfusion h
    | some c2 =>
      rw [hf] at h
      simp only [Except.ok.injEq] at h
      subst h
      have hm := List.mem_of_find?_eq_some hf
      have hp := List.find?_some hf
      simp only [decide_eq_true_eq] at hp
      exact ⟨rfl, hm, hp.1, hp.2⟩

theorem chairInStockForUpdate_none (table : List Chair) (id : Int)
    (h : noInStockRow table id) :
    chairInStockForUpdate false table id = Except.error DbError.errNoRows := by
  unfold chairInStockForUpdate
  have hf : table.find? (fun c => c.ID = id ∧ c.InStock = true) = none := by
    rw [List.find?_eq_none]
    intro c hc
    simp only [decide_eq_true_eq, not_and]
    intro hid
    simp [h c hc hid]
  simp only [Bool.false_eq_true, if_false]
  rw [hf]

theorem chairInStockForUpdate_some (table : List Chair) (id : Int) (c : Chair)
    (hc : c ∈ table) (hid : c.ID = id) (hs : c.InStock = true) :
    ∃ c2, chairInStockForUpdate false table id = Except.ok c2 := by
  unfold chairInStockForUpdate
  cases hf : table.find? (fun c => c.ID = id ∧ c.InStock = true) with
  | none =>
    rw [List.find?_eq_none] at hf
    have := hf c hc
    simp [hid, hs] at this
  | some c2 => exact ⟨c2, by simp only [Bool.false_eq_true, if_false]⟩

theorem buyChair_cases {F : Type} (faults : TxFaults) (req : DocumentRequest)
    (w : Tables F) :
    ((buyChair faults req w).1.status ≠ StatusOK ∧ (buyChair faults req w).2 = w) ∨
    (∃ (id : Int) (c : Chair), wellFormed req id ∧ faults = noFaults ∧
      chairInStockForUpdate false w.chairDb id = Except.ok c ∧
      buyChair faults req w =
        (NoContent StatusOK,
          { w with
            chairDb := decrementStock w.chairDb id,
            caches := { w.caches with
              chairDetailCache := cacheForget w.caches.chairDetailCache id,
              lowPricedChairCache := none } })) := by
  obtain ⟨fb, fq, fe, fc⟩ := faults
  obtain ⟨rb, re, rid⟩ := req
  unfold buyChair
  simp only []
  cases rb with
  | true => left; simp [NoContent]
  | false =>
  cases re with
  | none => left; simp [NoContent]
  | some em =>
  rcases hid : Atoi rid with ⟨id, _ | e⟩
  swap
  · left; simp [NoContent]
  cases fb with
  | true => left; simp [NoContent]
  | false =>
  cases hq : chairInStockForUpdate fq w.chairDb id with
  | error e => left; cases e <;> simp [NoContent, hq]
  | ok c =>
  obtain ⟨hfq, _⟩ := chairInStockForUpdate_ok _ _ _ _ hq
  subst hfq
  cases fe with
  | true => left; simp [NoContent, hq]
  | false =>
  cases fc with
  | true => left; simp [NoContent, hq]
  | false =>
  right
  refine ⟨id, c, ⟨rfl, by simp, hid⟩, rfl, hq, ?_⟩
  simp [hq]

theorem buyChair_notFound {F : Type} (faults : TxFaults) (req : DocumentRequest)
    (w : Tables F) (id : Int) (hreq : wellFormed req id) (hb : faults.beginx = false)
    (hq : faults.query = false) (hrow : noInStockRow w.chairDb id) :
    buyChair faults req w = (NoContent StatusNotFound, w) := by
  obtain ⟨h1, h2, h3⟩ := hreq
  obtain ⟨em, hem⟩ := Option.ne_none_iff_exists'.mp h2
  unfold buyChair
  simp [h1, hem, h3, hb, hq, chairInStockForUpdate_none _ _ hrow]

theorem buyChair_ok {F : Type} (req : DocumentRequest) (w : Tables F) (id : Int)
    (c : Chair) (hreq : wellFormed req id) (hc : c ∈ w.chairDb) (hid : c.ID = id)
    (hs : c.InStock = true) :
    (buyChair noFaults req w).1.status = StatusOK := by
  obtain ⟨h1, h2, h3⟩ := hreq
  obtain ⟨em, hem⟩ := Option.ne_none_iff_exists'.mp h2
  obtain ⟨c2, hc2⟩ := chairInStockForUpdate_some _ _ _ hc hid hs
  unfold buyChair
  simp [h1, hem, h3, noFaults, hc2, NoContent]

theorem row_unique (table : List Chair) (h : (table.map (fun c => c.ID)).Nodup)
    (a b : Chair) (ha : a ∈ table) (hb : b ∈ table) (hab : a.ID = b.ID) : a = b :=
  List.inj_on_of_nodup_map h ha hb hab

theorem stockOf_some (table : List Chair) (id s : Int) (h : stockOf table id = some s) :
    ∃ c ∈ table, c.ID = id ∧ c.Stock = s := by
  unfold stockOf at h
  cases hf : table.find? (fun c => c.ID = id) with
  | none => rw [hf] at h; simp at h
  | some c =>
    rw [hf] at h
    simp only [Option.map_some', Option.some.injEq] at h
    have hp := List.find?_some hf
    simp only [decide_eq_true_eq] at hp
    exact ⟨c, List.mem_of_find?_eq_some hf, hp, h⟩

theorem stockOf_of_mem (table : List Chair) (h : (table.map (fun c => c.ID)).Nodup)
    (c : Chair) (hc : c ∈ table) : stockOf table c.ID = some c.Stock := by
  unfold stockOf
  cases hf : table.find? (fun x => x.ID = c.ID) with
  | none =>
    rw [List.find?_eq_none] at hf
    have := hf c hc
    simp at this
  | some c2 =>
    have hp := List.find?_some hf
    simp only [decide_eq_true_eq] at hp
    have := row_unique table h c2 c (List.mem_of_find?_eq_some hf) hc hp
    simp [this]

theorem StoreInv_decrementStock (table : List Chair) (id : Int) (c : Chair)
    (hinv : StoreInv table)
    (hq : chairInStockForUpdate false table id = Except.ok c) :
    StoreInv (decrementStock table id) := by
  obtain ⟨hnd, hrows⟩ := hinv
  obtain ⟨_, hc, hcid, hcs⟩ := chairInStockForUpdate_ok _ _ _ _ hq
  refine ⟨by rw [decrementStock_ids]; exact hnd, ?_⟩
  intro r hr
  unfold decrementStock at hr
  obtain ⟨r0, hr0, rfl⟩ := List.mem_map.mp hr
  by_cases hid : r0.ID = id
  · have : r0 = c := row_unique table hnd r0 c hr0 hc (hid.trans hcid.symm)
    subst this
    have hpos : 0 < r0.Stock := (hrows r0 hr0).1.mp hcs
    simp only [hid, if_true, decide_eq_true_eq]
    exact ⟨trivial, by omega⟩
  · simp only [hid, if_false]
    exact hrows r0 hr0

theorem noInStockRow_decrementStock (table : List Chair) (id j : Int) (c : Chair)
    (hrow : noInStockRow table j)
    (hq : chairInStockForUpdate false table id = Except.ok c) :
    noInStockRow (decrementStock table id) j := by
  obtain ⟨_, hc, hcid, hcs⟩ := chairInStockForUpdate_ok _ _ _ _ hq
  have hne : id ≠ j := by
    intro h
    subst h
    have := hrow c hc hcid
    rw [hcs] at this
    exact Bool.noConfusion this
  intro r hr hrj
  unfold decrementStock at hr
  obtain ⟨r0, hr0, rfl⟩ := List.mem_map.mp hr
  by_cases hid : r0.ID = id
  · simp only [hid, if_true] at hrj
    exact absurd hrj hne
  · simp only [hid, if_false] at hrj ⊢
    exact hrow r0 hr0 hrj

theorem noInStockRow_after_last_unit (table : List Chair) (id : Int)
    (hinv : StoreInv table) (hs : stockOf table id = some 1) :
    noInStockRow (decrementStock table id) id := by
  obtain ⟨c, hc, hcid, hcs⟩ := stockOf_some _ _ _ hs
  intro r hr hrid
  unfold decrementStock at hr
  obtain ⟨r0, hr0, rfl⟩ := List.mem_map.mp hr
  by_cases hid : r0.ID = id
  · have : r0 = c := row_unique table hinv.1 r0 c hr0 hc (hid.trans hcid.symm)
    subst this
    simp [hid, hcs]
  · simp only [hid, if_false] at hrid

theorem BuyReachable_inv {F : Type} (w0 w : Tables F) (hinv : StoreInv w0.chairDb)
    (h : BuyReachable w0 w) : StoreInv w.chairDb := by
  induction h with
  | start => exact hinv
  | step w1 faults req _ ih =>
    rcases buyChair_cases faults req w1 with ⟨_, h2⟩ | ⟨id, c, _, _, hq, h2⟩
    · rw [h2]; exact ih
    · rw [h2]
      exact StoreInv_decrementStock _ _ _ ih hq

theorem BuyReachable_noInStockRow {F : Type} (w0 w : Tables F) (j : Int)
    (hrow : noInStockRow w0.chairDb j) (h : BuyReachable w0 w) :
    noInStockRow w.chairDb j := by
  induction h with
  | start => exact hrow
  | step w1 faults req _ ih =>
    rcases buyChair_cases faults req w1 with ⟨_, h2⟩ | ⟨id, c, _, _, hq, h2⟩
    · rw [h2]; exact ih
    · rw [h2]
      exact noInStockRow_decrementStock _ _ _ _ ih hq

theorem postChair_caches {σc σe F : Type}
    (NamedExec : σc → String → List Chair → Except DbError σc) (u : Upload)
    (w : World σc σe F) :
    ((postChair NamedExec u w).1.status = StatusCreated ∧
      (postChair NamedExec u w).2.caches = { w.caches with lowPricedChairCache := none }) ∨
    ((postChair NamedExec u w).1.status ≠ StatusCreated ∧ (postChair NamedExec u w).2 = w) := by
  unfold postChair
  cases u with
  | noFormFile => right; simp [NoContent]
  | openError => right; simp [NoContent]
  | csvError => right; simp [NoContent]
  | records rows =>
    simp only []
    cases postChairLoop rows [] with
    | none => right; simp [NoContent]
    | some chairs =>
      simp only []
      cases NamedExec w.chairDb insertChairStmt chairs with
      | error e => right; simp [NoContent]
      | ok db => left; simp [NoContent]

theorem postEstate_caches {σc σe F : Type} (fm : FloatModel F)
    (NamedExec : σe → String → List (Estate F) → Except DbError σe) (u : Upload)
    (w : World σc σe F) :
    ((postEstate fm NamedExec u w).1.status = StatusCreated ∧
      (postEstate fm NamedExec u w).2.caches
        = { w.caches with lowPricedEstateCache := none }) ∨
    ((postEstate fm NamedExec u w).1.status ≠ StatusCreated ∧
      (postEstate fm NamedExec u w).2 = w) := by
  unfold postEstate
  cases u with
  | noFormFile => right; simp [NoContent]
  | openError => right; simp [NoContent]
  | csvError => right; simp [NoContent]
  | records rows =>
    simp only []
    cases postEstateLoop fm rows [] with
    | none => right; simp [NoContent]
    | some estates =>
      simp only []
      cases NamedExec w.estateDb insertEstateStmt estates with
      | error e => right; simp [NoContent]
      | ok db => left; simp [NoContent]

/-- C11: a purchase that reaches the lookup (the request is well formed and the
store answers) for a chair id without an in-stock row, absent or sold out, is
answered with 404 and returns the world it received: no stock is modified and no
cache entry is forgotten or purged. -/
theorem purchase_without_stock_is_not_found {F : Type} (faults : TxFaults)
    (req : DocumentRequest) (w : Tables F) (id : Int)
    (hreq : wellFormed req id) (hb : faults.beginx = false) (hq : faults.query = false)
    (hrow : noInStockRow w.chairDb id) :
    buyChair faults req w = (NoContent StatusNotFound, w) :=
  buyChair_notFound faults req w id hreq hb hq hrow

theorem purchase_without_stock_is_not_found_witness :
    wellFormed (buyRequest "3") 3 ∧ noInStockRow shopWorld.chairDb 3 ∧
    wellFormed (buyRequest "7") 7 ∧ noInStockRow shopWorld.chairDb 7 ∧
    buyChair noFaults (buyRequest "3") shopWorld = (NoContent StatusNotFound, shopWorld) ∧
    buyChair noFaults (buyRequest "7") shopWorld = (NoContent StatusNotFound, shopWorld) :=
  ⟨by decide, by decide, by decide, by decide,
    purchase_without_stock_is_not_found noFaults (buyRequest "3") shopWorld 3
      (by decide) rfl rfl (by decide),
    purchase_without_stock_is_not_found noFaults (buyRequest "7") shopWorld 7
      (by decide) rfl rfl (by decide)⟩

/-- C12: over `buyChair` run sequentially from a chair table that satisfies
`StoreInv` (unique ids, in-stock flag equal to `stock > 0`, no negative stock):
every reachable table satisfies `StoreInv`, so no stock is negative; a
successful purchase lowers the stock of the purchased chair by exactly one and
leaves the stock of every other id unchanged; and on a chair with stock 1 a
purchase succeeds, after which every purchase of that chair that reaches the
lookup is answered with 404. -/
theorem purchase_steps_keep_stock_consistent {F : Type} (w0 w : Tables F)
    (faults : TxFaults) (req : DocumentRequest)
    (hinv : StoreInv w0.chairDb) (hreach : BuyReachable w0 w) :
    StoreInv w.chairDb ∧
    (∀ c ∈ w.chairDb, 0 ≤ c.Stock) ∧
    ((buyChair faults req w).1.status = StatusOK →
      ∃ id s : Int, Atoi req.id = (id, none) ∧ stockOf w.chairDb id = some s ∧ 0 < s ∧
        stockOf (buyChair faults req w).2.chairDb id = some (s - 1) ∧
        ∀ j : Int, j ≠ id →
          stockOf (buyChair faults req w).2.chairDb j = stockOf w.chairDb j) ∧
    (∀ id : Int, stockOf w.chairDb id = some 1 → wellFormed req id →
      (buyChair noFaults req w).1.status = StatusOK ∧
      ∀ (w2 : Tables F) (faults2 : TxFaults) (req2 : DocumentRequest),
        BuyReachable (buyChair noFaults req w).2 w2 → wellFormed req2 id →
        faults2.beginx = false → faults2.query = false →
        buyChair faults2 req2 w2 = (NoContent StatusNotFound, w2)) := by
  have hw : StoreInv w.chairDb := BuyReachable_inv w0 w hinv hreach
  refine ⟨hw, fun c hc => (hw.2 c hc).2, ?_, ?_⟩
  · intro hok
    rcases buyChair_cases faults req w with ⟨hne, _⟩ | ⟨id, c, hreq, _, hq, hres⟩
    · exact absurd hok hne
    · obtain ⟨_, hc, hcid, hcs⟩ := chairInStockForUpdate_ok _ _ _ _ hq
      have hstock : stockOf w.chairDb id = some c.Stock := by
        rw [← hcid]; exact stockOf_of_mem _ hw.1 c hc
      refine ⟨id, c.Stock, hreq.2.2, hstock, (hw.2 c hc).1.mp hcs, ?_, ?_⟩
      · rw [hres]
        simp only []
        rw [stockOf_decrementStock, if_pos rfl, hstock]
        rfl
      · intro j hj
        rw [hres]
        simp only []
        rw [stockOf_decrementStock, if_neg hj]
  · intro id hs hreq
    obtain ⟨c, hc, hcid, hcs⟩ := stockOf_some _ _ _ hs
    have hin : c.InStock = true := (hw.2 c hc).1.mpr (by omega)
    have hok := buyChair_ok req w id c hreq hc hcid hin
    refine ⟨hok, ?_⟩
    intro w2 faults2 req2 hreach2 hreq2 hb hq
    rcases buyChair_cases noFaults req w with ⟨hne, _⟩ | ⟨id2, c2, hreq3, _, hq3, hres⟩
    · exact absurd hok hne
    · have hid : id2 = id := by
        have h1 := hreq3.2.2
        rw [hreq.2.2] at h1
        exact (Prod.mk.inj h1).1.symm
      subst hid
      have hsold : noInStockRow (buyChair noFaults req w).2.chairDb id2 := by
        rw [hres]
        exact noInStockRow_after_last_unit _ _ hw hs
      exact buyChair_notFound faults2 req2 w2 id2 hreq2 hb hq
        (BuyReachable_noInStockRow _ _ _ hsold hreach2)

theorem purchase_steps_keep_stock_consistent_witness :
    StoreInv shopWorld.chairDb ∧
    stockOf shopWorld.chairDb 1 = some 1 ∧
    wellFormed (buyRequest "1") 1 ∧
    (buyChair noFaults (buyRequest "1") shopWorld).1.status = StatusOK ∧
    stockOf (buyChair noFaults (buyRequest "1") shopWorld).2.chairDb 1 = some 0 ∧
    buyChair noFaults (buyRequest "1") (buyChair noFaults (buyRequest "1") shopWorld).2
      = (NoContent StatusNotFound, (buyChair noFaults (buyRequest "1") shopWorld).2) :=
  have h := purchase_steps_keep_stock_consistent shopWorld shopWorld noFaults
    (buyRequest "1") (by decide) BuyReachable.start
  ⟨by decide, by decide, by decide, by decide, by decide,
    (h.2.2.2 1 (by decide) (by decide)).2 _ noFaults (buyRequest "1") BuyReachable.start
      (by decide) rfl rfl⟩

/-- C13: the effect of the three writers on the four caches. A successful
`postChair` (201) empties the low-priced-chair cache and leaves the other three
caches as they were; a successful `postEstate` (201) empties the
low-priced-estate cache and leaves the other three; a successful `buyChair`
(200) removes from the chair-detail cache exactly the entries of the purchased
id, empties the low-priced-chair cache and leaves both estate caches; and each
of them, when it does not succeed, leaves all four caches unchanged. -/
theorem writers_invalidate_only_their_caches {σc σe F : Type} (fm : FloatModel F)
    (execC : σc → String → List Chair → Except DbError σc)
    (execE : σe → String → List (Estate F) → Except DbError σe)
    (uc ue : Upload) (wp : World σc σe F)
    (faults : TxFaults) (req : DocumentRequest) (w : Tables F) :
    ((postChair execC uc wp).1.status = StatusCreated →
      (postChair execC uc wp).2.caches = { wp.caches with lowPricedChairCache := none }) ∧
    ((postChair execC uc wp).1.status ≠ StatusCreated →
      (postChair execC uc wp).2.caches = wp.caches) ∧
    ((postEstate fm execE ue wp).1.status = StatusCreated →
      (postEstate fm execE ue wp).2.caches
        = { wp.caches with lowPricedEstateCache := none }) ∧
    ((postEstate fm execE ue wp).1.status ≠ StatusCreated →
      (postEstate fm execE ue wp).2.caches = wp.caches) ∧
    ((buyChair faults req w).1.status = StatusOK →
      ∃ id : Int, Atoi req.id = (id, none) ∧
        (buyChair faults req w).2.caches =
          { w.caches with
            chairDetailCache := w.caches.chairDetailCache.filter (fun e => e.1 ≠ id),
            lowPricedChairCache := none } ∧
        ∀ e : Int × Chair, e ∈ (buyChair faults req w).2.caches.chairDetailCache ↔
          e ∈ w.caches.chairDetailCache ∧ e.1 ≠ id) ∧
    ((buyChair faults req w).1.status ≠ StatusOK →
      (buyChair faults req w).2.caches = w.caches) := by
  refine ⟨?_, ?_, ?_, ?_, ?_, ?_⟩
  · intro h
    rcases postChair_caches execC uc wp with h1 | h1
    · exact h1.2
    · exact absurd h h1.1
  · intro h
    rcases postChair_caches execC uc wp with h1 | h1
    · exact absurd h1.1 h
    · rw [h1.2]
  · intro h
    rcases postEstate_caches fm execE ue wp with h1 | h1
    · exact h1.2
    · exact absurd h h1.1
  · intro h
    rcases postEstate_caches fm execE ue wp with h1 | h1
    · exact absurd h1.1 h
    · rw [h1.2]
  · intro h
    rcases buyChair_cases faults req w with ⟨hne, _⟩ | ⟨id, c, hreq, _, _, hres⟩
    · exact absurd h hne
    · refine ⟨id, hreq.2.2, by rw [hres]; rfl, ?_⟩
      intro e
      rw [hres]
      simp [cacheForget]
  · intro h
    rcases buyChair_cases faults req w with ⟨_, h2⟩ | ⟨id, c, _, _, _, hres⟩
    · rw [h2]
    · exact absurd (by rw [hres]; rfl) h

theorem writers_invalidate_only_their_caches_witness :
    (postChair appendRows (Upload.records [sampleChairRow]) shopWorld).2.caches
      = { shopWorld.caches with lowPricedChairCache := none } ∧
    (postEstate intCoordinates appendRows (Upload.records [sampleEstateRow])
      shopWorld).2.caches = { shopWorld.caches with lowPricedEstateCache := none } ∧
    (postChair appendRows (Upload.records [shortChairRow]) shopWorld).2.caches
      = shopWorld.caches ∧
    (buyChair noFaults (buyRequest "3") shopWorld).2.caches = shopWorld.caches ∧
    (buyChair noFaults (buyRequest "2") shopWorld).2.caches.chairDetailCache
      = [(1, chairRow 1 1000 1)] :=
  have h := writers_invalidate_only_their_caches intCoordinates appendRows appendRows
    (Upload.records [sampleChairRow]) (Upload.records [sampleEstateRow]) shopWorld
    noFaults (buyRequest "3") shopWorld
  have h2 := writers_invalidate_only_their_caches intCoordinates appendRows appendRows
    (Upload.records [shortChairRow]) (Upload.records [sampleEstateRow]) shopWorld
    noFaults (buyRequest "2") shopWorld
  ⟨h.1 (by decide), h.2.2.1 (by decide), h2.2.1 (by decide), h.2.2.2.2.2 (by decide),
    by decide⟩

/-- C14: `getChairDetail` hides sold-out chairs. When the chair returned by the
chair-detail cache has `stock <= 0` the response is the 404 without body that
an id without a row receives, and the response is 200 with the chair exactly
when the lookup succeeds with `stock > 0`. -/
theorem chair_detail_hides_sold_out {F : Type} (dbError : Bool) (idParam : String)
    (id : Int) (w : Tables F) (hid : Atoi idParam = (id, none)) :
    (∀ c : Chair, (chairDetailGet dbError w id).1 = Except.ok c → c.Stock ≤ 0 →
      (getChairDetail dbError idParam w).1 = NoContent StatusNotFound) ∧
    ((chairDetailGet dbError w id).1 = Except.error DbError.errNoRows →
      (getChairDetail dbError idParam w).1 = NoContent StatusNotFound) ∧
    (∀ c : Chair, (getChairDetail dbError idParam w).1 = JSON StatusOK c ↔
      ((chairDetailGet dbError w id).1 = Except.ok c ∧ 0 < c.Stock)) ∧
    ((getChairDetail dbError idParam w).1.status = StatusOK ↔
      ∃ c : Chair, (chairDetailGet dbError w id).1 = Except.ok c ∧ 0 < c.Stock) := by
  unfold getChairDetail
  rw [hid]
  simp only []
  rcases hg : chairDetailGet dbError w id with ⟨r, w1⟩
  cases r with
  | error e =>
    cases e <;> simp [NoContent, JSON]
  | ok chair =>
    by_cases hs : chair.Stock ≤ 0
    · simp only [hs, if_true]
      refine ⟨by intros; first | rfl | trivial, fun h => Except.noConfusion h, ?_, ?_⟩
      · intro c
        simp only [NoContent, JSON, Except.ok.injEq]
        constructor
        · intro h
          have := congrArg Response.status h
          simp at this
        · rintro ⟨rfl, hpos⟩
          omega
      · simp only [NoContent, Except.ok.injEq]
        constructor
        · intro h; simp at h
        · rintro ⟨c, rfl, hpos⟩
          omega
    · simp only [hs, if_false]
      refine ⟨?_, fun h => Except.noConfusion h, ?_, ?_⟩
      · intro c hc hle
        simp only [Except.ok.injEq] at hc
        subst hc
        exact absurd hle hs
      · intro c
        simp only [JSON, Except.ok.injEq, Response.mk.injEq, true_and, Option.some.injEq]
        constructor
        · rintro rfl
          exact ⟨rfl, by omega⟩
        · rintro ⟨rfl, _⟩
          trivial
      · simp only [JSON, Except.ok.injEq, true_iff]
        exact ⟨chair, rfl, by omega⟩

theorem chair_detail_hides_sold_out_witness :
    Atoi "3" = (3, none) ∧
    (chairDetailGet false shopWorld 3).1 = Except.ok (chairRow 3 3000 0) ∧
    (getChairDetail false "3" shopWorld).1 = NoContent StatusNotFound ∧
    (getChairDetail false "7" shopWorld).1 = NoContent StatusNotFound ∧
    (getChairDetail false "2" shopWorld).1 = JSON StatusOK (chairRow 2 2000 5) :=
  ⟨by decide, rfl,
    (chair_detail_hides_sold_out false "3" 3 shopWorld (by decide)).1
      (chairRow 3 3000 0) rfl (by decide),
    (chair_detail_hides_sold_out false "7" 7 shopWorld (by decide)).2.1 rfl,
    ((chair_detail_hides_sold_out false "2" 2 shopWorld (by decide)).2.2.1
      (chairRow 2 2000 5)).mpr ⟨rfl, by decide⟩⟩

/-- C15 (refuted as stated): `searchRecommendedEstateWithChair` answers 400, not
404, when the chair lookup reports that no row exists. In `shopWorld` no chair
has id 7; the lookup returns `sql.ErrNoRows` and the status is 400. -/
theorem recommended_estate_missing_chair_is_bad_request :
    chairById false shopWorld.chairDb 7 = Except.error DbError.errNoRows ∧
    (searchRecommendedEstateWithChair false (selectConst [estateRow 9]) "7"
      shopWorld).1.status = StatusBadRequest ∧
    (searchRecommendedEstateWithChair false (selectConst [estateRow 9]) "7"
      shopWorld).1.status ≠ StatusNotFound := by
  refine ⟨rfl, by decide, by decide⟩

/-- C15 (as amended): each handler answers from its own lookup alone. When the
lookup of a handler reports that no row exists for the requested id,
`getChairDetail`, `getEstateDetail`, `buyChair` and `postEstateRequestDocument`
answer 404 without body, and `searchRecommendedEstateWithChair` answers 400
without body and sends no query to the estate store. Nothing is assumed about
the other table or the other caches. -/
theorem missing_row_status {F : Type} (dbError : Bool)
    (Select : Query → Except DbError (List (Estate F))) (faults : TxFaults)
    (idParam : String) (req : DocumentRequest) (id : Int) (w : Tables F) :
    (Atoi idParam = (id, none) →
      (chairDetailGet dbError w id).1 = Except.error DbError.errNoRows →
      (getChairDetail dbError idParam w).1 = NoContent StatusNotFound) ∧
    (Atoi idParam = (id, none) →
      (estateDetailGet dbError w id).1 = Except.error DbError.errNoRows →
      (getEstateDetail dbError idParam w).1 = NoContent StatusNotFound) ∧
    (wellFormed req id → faults.beginx = false →
      chairInStockForUpdate faults.query w.chairDb id = Except.error DbError.errNoRows →
      (buyChair faults req w).1 = NoContent StatusNotFound) ∧
    (wellFormed req id →
      (estateDetailGet dbError w id).1 = Except.error DbError.errNoRows →
      (postEstateRequestDocument dbError req w).1 = NoContent StatusNotFound) ∧
    (Atoi idParam = (id, none) →
      chairById dbError w.chairDb id = Except.error DbError.errNoRows →
      searchRecommendedEstateWithChair dbError Select idParam w
        = (NoContent StatusBadRequest, [])) := by
  refine ⟨?_, ?_, ?_, ?_, ?_⟩
  · intro hid hchair
    unfold getChairDetail
    rw [hid]
    simp only []
    rcases hg : chairDetailGet dbError w id with ⟨r, w1⟩
    rw [hg] at hchair
    simp only [] at hchair
    subst hchair
    rfl
  · intro hid hestate
    unfold getEstateDetail
    rw [hid]
    simp only []
    rcases hg : estateDetailGet dbError w id with ⟨r, w1⟩
    rw [hg] at hestate
    simp only [] at hestate
    subst hestate
    rfl
  · intro hreq hb hbuy
    obtain ⟨h1, h2, h3⟩ := hreq
    obtain ⟨em, hem⟩ := Option.ne_none_iff_exists'.mp h2
    unfold buyChair
    simp [h1, hem, h3, hb, hbuy]
  · intro hreq hestate
    obtain ⟨h1, h2, h3⟩ := hreq
    obtain ⟨em, hem⟩ := Option.ne_none_iff_exists'.mp h2
    unfold postEstateRequestDocument
    rw [h3]
    simp only [h1, hem]
    rcases hg : estateDetailGet dbError w id with ⟨r, w1⟩
    rw [hg] at hestate
    simp only [] at hestate
    subst hestate
    simp
  · intro hid hrec
    unfold searchRecommendedEstateWithChair
    rw [hid]
    simp only [hrec]

theorem missing_row_status_witness :
    chairById false shopWorld.chairDb 1 = Except.ok (chairRow 1 1000 1) ∧
    (estateDetailGet false shopWorld 1).1 = Except.error DbError.errNoRows ∧
    (getEstateDetail false "1" shopWorld).1 = NoContent StatusNotFound ∧
    (postEstateRequestDocument false (buyRequest "1") shopWorld).1
      = NoContent StatusNotFound ∧
    estateById false shopWorld.estateDb 9 = Except.ok (estateRow 9) ∧
    (chairDetailGet false shopWorld 9).1 = Except.error DbError.errNoRows ∧
    (getChairDetail false "9" shopWorld).1 = NoContent StatusNotFound ∧
    (buyChair noFaults (buyRequest "9") shopWorld).1 = NoContent StatusNotFound ∧
    searchRecommendedEstateWithChair false (selectConst [estateRow 9]) "9" shopWorld
      = (NoContent StatusBadRequest, []) :=
  have h1 := missing_row_status false (selectConst [estateRow 9]) noFaults "1"
    (buyRequest "1") 1 shopWorld
  have h9 := missing_row_status false (selectConst [estateRow 9]) noFaults "9"
    (buyRequest "9") 9 shopWorld
  ⟨rfl, rfl, h1.2.1 (by decide) rfl, h1.2.2.2.1 (by decide) rfl,
    rfl, rfl, h9.1 (by decide) rfl, h9.2.2.1 (by decide) rfl rfl,
    h9.2.2.2.2 (by decide) rfl⟩

/-- C16: `searchEstateNazotte` answers an empty coordinate list with 400 and
sends no query; for a list of one or more coordinates it does not answer 400:
it sends exactly one query, the containment query for the polygon text, bound
to the single argument `NazotteLimit = 50`, and when the store returns rows the
response is 200 with `count` equal to their number (zero rows included; the
store reporting `sql.ErrNoRows` gives 200 with count 0). -/
theorem nazotte_requires_coordinates {F : Type} (fmtF : F → String)
    (Select : Query → Except DbError (List (Estate F)))
    (c : Coordinate F) (cs : List (Coordinate F)) :
    searchEstateNazotte fmtF Select (some []) = (NoContent StatusBadRequest, []) ∧
    (searchEstateNazotte fmtF Select (some (c :: cs))).1.status ≠ StatusBadRequest ∧
    (searchEstateNazotte fmtF Select (some (c :: cs))).2
      = [⟨nazotteStmt (coordinatesToText fmtF (c :: cs)), [SqlArg.int NazotteLimit]⟩] ∧
    NazotteLimit = 50 ∧
    (∀ estates : List (Estate F),
      Select ⟨nazotteStmt (coordinatesToText fmtF (c :: cs)), [SqlArg.int NazotteLimit]⟩
        = Except.ok estates →
      (searchEstateNazotte fmtF Select (some (c :: cs))).1
        = JSON StatusOK ⟨(estates.length : Int), estates⟩) ∧
    (Select ⟨nazotteStmt (coordinatesToText fmtF (c :: cs)), [SqlArg.int NazotteLimit]⟩
        = Except.error DbError.errNoRows →
      (searchEstateNazotte fmtF Select (some (c :: cs))).1 = JSON StatusOK ⟨0, []⟩) := by
  refine ⟨by simp [searchEstateNazotte], ?_, ?_, rfl, ?_, ?_⟩
  · simp only [searchEstateNazotte, List.length_cons, Nat.succ_ne_zero, if_false]
    cases Select ⟨"SELECT * FROM estate WHERE ST_Contains(ST_PolygonFromText(" ++
        coordinatesToText fmtF (c :: cs) ++
        "), point) ORDER BY popularity_m ASC, id ASC LIMIT ?", [SqlArg.int NazotteLimit]⟩ with
    | error e => cases e <;> simp [NoContent, JSON]
    | ok rows => simp [JSON]
  · simp only [searchEstateNazotte, List.length_cons, Nat.succ_ne_zero, if_false, nazotteStmt]
    cases Select ⟨"SELECT * FROM estate WHERE ST_Contains(ST_PolygonFromText(" ++
        coordinatesToText fmtF (c :: cs) ++
        "), point) ORDER BY popularity_m ASC, id ASC LIMIT ?", [SqlArg.int NazotteLimit]⟩ with
    | error e => cases e <;> rfl
    | ok rows => rfl
  · intro estates h
    simp only [nazotteStmt] at h
    simp only [searchEstateNazotte, List.length_cons, Nat.succ_ne_zero, if_false, h]
  · intro h
    simp only [nazotteStmt] at h
    simp only [searchEstateNazotte, List.length_cons, Nat.succ_ne_zero, if_false, h]

theorem nazotte_requires_coordinates_witness :
    (searchEstateNazotte fmtIntCoordinate (selectConst [estateRow 9])
      (some [⟨35, 139⟩, ⟨36, 139⟩, ⟨36, 140⟩])).1
      = JSON StatusOK ⟨1, [estateRow 9]⟩ ∧
    (searchEstateNazotte fmtIntCoordinate (selectConst ([] : List (Estate Int)))
      (some [⟨35, 139⟩])).1 = JSON StatusOK ⟨0, []⟩ :=
  ⟨(nazotte_requires_coordinates fmtIntCoordinate (selectConst [estateRow 9]) ⟨35, 139⟩
      [⟨36, 139⟩, ⟨36, 140⟩]).2.2.2.2.1 [estateRow 9] rfl,
    (nazotte_requires_coordinates fmtIntCoordinate (selectConst ([] : List (Estate Int)))
      ⟨35, 139⟩ []).2.2.2.2.1 [] rfl⟩

/-! ## Lemmas on placeholders -/

theorem digitChar_ne_placeholder : ∀ d : Nat, d < 10 → Nat.digitChar d ≠ '?' := by
  decide

theorem toDigitsCore_no_placeholder (fuel n : Nat) (ds : List Char)
    (h : ∀ c ∈ ds, c ≠ '?') : ∀ c ∈ Nat.toDigitsCore 10 fuel n ds, c ≠ '?' := by
  induction fuel generalizing n ds with
  | zero => simpa [Nat.toDigitsCore] using h
  | succ fuel ih =>
    unfold Nat.toDigitsCore
    have hcons : ∀ c ∈ Nat.digitChar (n % 10) :: ds, c ≠ '?' := by
      intro c hc
      rcases List.mem_cons.mp hc with rfl | hc
      · exact digitChar_ne_placeholder _ (Nat.mod_lt _ (by decide))
      · exact h c hc
    simp only []
    split
    · exact hcons
    · exact ih _ _ hcons

theorem repr_no_placeholder (n : Nat) : (Nat.repr n).data.count '?' = 0 := by
  rw [List.count_eq_zero]
  intro hmem
  exact toDigitsCore_no_placeholder (n + 1) n [] (by simp) '?' hmem rfl

theorem countPlaceholders_append (a b : String) :
    countPlaceholders (a ++ b) = countPlaceholders a + countPlaceholders b := by
  simp [countPlaceholders, String.data_append, List.count_append]

theorem countPlaceholders_Itoa (n : Int) : countPlaceholders (Itoa n) = 0 := by
  cases n with
  | ofNat m => exact repr_no_placeholder m
  | negSucc m =>
    simp only [Itoa]
    rw [countPlaceholders_append]
    have h1 : countPlaceholders "-" = 0 := by decide
    have h2 : countPlaceholders (Nat.repr (m + 1)) = 0 := repr_no_placeholder (m + 1)
    omega

theorem countPlaceholders_Join (elems : List String) (sep : String)
    (hsep : countPlaceholders sep = 0) :
    countPlaceholders (Join elems sep) = (elems.map countPlaceholders).sum := by
  induction elems with
  | nil => simp [Join, countPlaceholders]
  | cons a rest ih =>
    cases rest with
    | nil => simp [Join]
    | cons b rest =>
      rw [Join, countPlaceholders_append, countPlaceholders_append, ih, hsep]
      simp

theorem rangeFacet_placeholders (column value : String) (conditions out : List String)
    (hcol : countPlaceholders column = 0)
    (h : rangeFacet column value conditions = some out) :
    (out.map countPlaceholders).sum = (conditions.map countPlaceholders).sum := by
  unfold rangeFacet at h
  split at h
  · simp only [] at h
    split at h
    · exact Option.noConfusion h
    · simp only [Option.some.injEq] at h
      subst h
      simp [countPlaceholders_append, hcol, countPlaceholders_Itoa]
  · simp only [Option.some.injEq] at h
    subst h
    rfl

theorem equalityFacet_placeholders (condition value : String)
    (cp : List String × List SqlArg) (hcond : countPlaceholders condition = 1)
    (h : (cp.1.map countPlaceholders).sum = cp.2.length) :
    ((equalityFacet condition value cp).1.map countPlaceholders).sum
      = (equalityFacet condition value cp).2.length := by
  unfold equalityFacet
  split
  · simp [hcond, h]
  · exact h

theorem featuresFacet_placeholders (condition value : String)
    (cp : List String × List SqlArg) (hcond : countPlaceholders condition = 1)
    (h : (cp.1.map countPlaceholders).sum = cp.2.length) :
    ((featuresFacet condition value cp).1.map countPlaceholders).sum
      = (featuresFacet condition value cp).2.length := by
  rw [featuresFacet_eq]
  split
  · simp [hcond, h, Split_length]
  · exact h

theorem searchChairsConditions_placeholders (c : Context) (conditions : List String)
    (params : List SqlArg) (h : searchChairsConditions c = some (conditions, params)) :
    (conditions.map countPlaceholders).sum = params.length := by
  unfold searchChairsConditions at h
  cases h1 : rangeFacet "price_range=" (c.QueryParam "priceRangeId") [] with
  | none => simp [h1] at h
  | some l1 =>
  cases h2 : rangeFacet "height_range=" (c.QueryParam "heightRangeId") l1 with
  | none => simp [h1, h2] at h
  | some l2 =>
  cases h3 : rangeFacet "width_range=" (c.QueryParam "widthRangeId") l2 with
  | none => simp [h1, h2, h3] at h
  | some l3 =>
  cases h4 : rangeFacet "depth_range=" (c.QueryParam "depthRangeId") l3 with
  | none => simp [h1, h2, h3, h4] at h
  | some l4 =>
  simp only [h1, h2, h3, h4, Option.some.injEq] at h
  have e1 := rangeFacet_placeholders _ _ _ _ (by decide) h1
  have e2 := rangeFacet_placeholders _ _ _ _ (by decide) h2
  have e3 := rangeFacet_placeholders _ _ _ _ (by decide) h3
  have e4 := rangeFacet_placeholders _ _ _ _ (by decide) h4
  have e0 : ((l4, ([] : List SqlArg)).1.map countPlaceholders).sum
      = (l4, ([] : List SqlArg)).2.length := by
    simp only [List.length_nil]
    rw [e4, e3, e2, e1]
    rfl
  have ek := equalityFacet_placeholders "kind = ?" (c.QueryParam "kind") _ (by decide) e0
  have ec := equalityFacet_placeholders "color = ?" (c.QueryParam "color") _ (by decide) ek
  have ef := featuresFacet_placeholders "features LIKE CONCAT('%', ?, '%')"
    (c.QueryParam "features") _ (by decide) ec
  rw [h] at ef
  exact ef

theorem searchEstatesConditions_placeholders (c : Context) (conditions : List String)
    (params : List SqlArg) (h : searchEstatesConditions c = some (conditions, params)) :
    (conditions.map countPlaceholders).sum = params.length := by
  unfold searchEstatesConditions at h
  cases h1 : rangeFacet "door_height_range=" (c.QueryParam "doorHeightRangeId") [] with
  | none => simp [h1] at h
  | some l1 =>
  cases h2 : rangeFacet "door_width_range=" (c.QueryParam "doorWidthRangeId") l1 with
  | none => simp [h1, h2] at h
  | some l2 =>
  cases h3 : rangeFacet "rent_range=" (c.QueryParam "rentRangeId") l2 with
  | none => simp [h1, h2, h3] at h
  | some l3 =>
  simp only [h1, h2, h3, Option.some.injEq] at h
  have e1 := rangeFacet_placeholders _ _ _ _ (by decide) h1
  have e2 := rangeFacet_placeholders _ _ _ _ (by decide) h2
  have e3 := rangeFacet_placeholders _ _ _ _ (by decide) h3
  have e0 : ((l3, ([] : List SqlArg)).1.map countPlaceholders).sum
      = (l3, ([] : List SqlArg)).2.length := by
    simp only [List.length_nil]
    rw [e3, e2, e1]
    rfl
  have ef := featuresFacet_placeholders "features like concat('%', ?, '%')"
    (c.QueryParam "features") _ (by decide) e0
  rw [h] at ef
  exact ef

theorem runSearch_placeholders {α β : Type} (sq cq : String) (mk : Int → List α → β)
    (db : SearchDb α) (c : Context) (conditions : List String) (params : List SqlArg)
    (hsq : countPlaceholders sq = 0) (hcq : countPlaceholders cq = 0)
    (hsum : (conditions.map countPlaceholders).sum = params.length)
    (hst : (runSearch sq cq mk db c conditions params).1.status ≠ StatusBadRequest) :
    PlaceholderShape cq sq params (runSearch sq cq mk db c conditions params).2 := by
  have hP : countPlaceholders (Join conditions " AND ") = params.length := by
    rw [countPlaceholders_Join _ _ (by decide), hsum]
  have hlo : countPlaceholders limitOffsetText = 2 := by decide
  rcases runSearch_shape sq cq mk db c conditions params with h | h
  · exact absurd h.1 hst
  · obtain ⟨_, page, perPage, _, _, hsent⟩ := h
    refine ⟨Join conditions " AND ", perPage, wrap64 (page * perPage), hP, ?_, ?_, ?_⟩
    · rw [countPlaceholders_append, hcq, hP, Nat.zero_add]
    · rw [countPlaceholders_append, countPlaceholders_append, hsq, hP, hlo, Nat.zero_add]
    · rcases hsent with ⟨h1, _⟩ | ⟨h1, _⟩
      · exact Or.inl h1
      · exact Or.inr h1

/-- C18: for every accepted search (one not answered with 400) the predicate
text has as many `?` placeholders as the count query has bound arguments, which
are `boundValues`: the non-empty `kind`, the non-empty `color` and the pieces of
`features`, in that order, with none for the bucket-id facets; the texts before
the predicate have no placeholder, and the select query has exactly two more
placeholders, bound to two further integers (`perPage` and the offset). -/
theorem placeholders_match_bound_arguments {F : Type} (cdb : SearchDb Chair)
    (edb : SearchDb (Estate F)) (c d : Context)
    (hc : (searchChairs cdb c).1.status ≠ StatusBadRequest)
    (hd : (searchEstates edb d).1.status ≠ StatusBadRequest) :
    PlaceholderShape "SELECT COUNT(*) FROM chair WHERE " "SELECT * FROM chair WHERE "
      (boundValues (c.QueryParam "kind") (c.QueryParam "color") (c.QueryParam "features"))
      (searchChairs cdb c).2 ∧
    PlaceholderShape "SELECT COUNT(*) FROM estate WHERE " "SELECT * FROM estate WHERE "
      (boundValues "" "" (d.QueryParam "features")) (searchEstates edb d).2 ∧
    countPlaceholders limitOffsetText = 2 := by
  refine ⟨?_, ?_, by decide⟩
  · unfold searchChairs at hc ⊢
    cases hcond : searchChairsConditions c with
    | none => simp [hcond, NoContent] at hc
    | some cp =>
      obtain ⟨conditions, params⟩ := cp
      simp only [hcond] at hc ⊢
      split at hc
      · simp [NoContent] at hc
      · rename_i hlen
        rw [if_neg hlen]
        have hargs := searchChairsConditions_args c conditions params hcond
        have hsum := searchChairsConditions_placeholders c conditions params hcond
        rw [← hargs]
        apply runSearch_placeholders _ _ _ _ _ _ _ (by decide) (by decide) _ hc
        rw [List.map_append, List.sum_append, hsum]
        have : countPlaceholders "`in_stock` = 1" = 0 := by decide
        simp [this]
  · unfold searchEstates at hd ⊢
    cases hcond : searchEstatesConditions d with
    | none => simp [hcond, NoContent] at hd
    | some cp =>
      obtain ⟨conditions, params⟩ := cp
      simp only [hcond] at hd ⊢
      split at hd
      · simp [NoContent] at hd
      · rename_i hlen
        rw [if_neg hlen]
        have hargs := searchEstatesConditions_args d conditions params hcond
        have hsum := searchEstatesConditions_placeholders d conditions params hcond
        rw [← hargs]
        exact runSearch_placeholders _ _ _ _ _ _ _ (by decide) (by decide) hsum hd

theorem placeholders_match_bound_arguments_witness :
    (searchChairs sampleChairDb chairSearchB).1.status ≠ StatusBadRequest ∧
    (searchEstates sampleEstateDb estateSearchB).1.status ≠ StatusBadRequest ∧
    (boundValues (chairSearchB.QueryParam "kind") (chairSearchB.QueryParam "color")
      (chairSearchB.QueryParam "features")).length = 4 ∧
    PlaceholderShape "SELECT COUNT(*) FROM chair WHERE " "SELECT * FROM chair WHERE "
      (boundValues (chairSearchB.QueryParam "kind") (chairSearchB.QueryParam "color")
        (chairSearchB.QueryParam "features"))
      (searchChairs sampleChairDb chairSearchB).2 :=
  ⟨by decide, by decide, by decide,
    (placeholders_match_bound_arguments sampleChairDb sampleEstateDb chairSearchB
      estateSearchB (by decide) (by decide)).1⟩

end Isuumo
